import Mathlib

/-!
# Verification of the Currency-Converter-Pro price-detection engine

A shallow embedding of the price-detection, extraction and conversion logic
of `content.js` (together with the regex/pattern libraries `lib/regex.js`
and `lib/patterns.js`), and proofs settling the frozen claims about it.

Conventions of the embedding:
* JS strings are `List Char` (wrapped from `String` at the API boundary);
  JS numbers that the modelled code manipulates (amounts, rates, scores)
  are exact rationals `ℚ` / integers `ℤ`; the rate table is a finite map
  `List (String × ℚ)`, so a missing entry models `undefined` and the JS
  falsiness of `0` is modelled explicitly.  Overflow to `Infinity` of
  finite double arithmetic is not modelled (rationals are exact); the
  only source of non-finite results in the modelled code paths is
  division by a zero rate, which is modelled.
* Each JavaScript regular expression used by the modelled code is
  transliterated into a small nondeterministic matcher (combinator
  engine below) preserving the leftmost-match and greedy backtracking
  order of the JS engine.
-/

namespace CCP

/-! ## Character and string utilities (JS semantics) -/

/-- ASCII digit test, JS `\d`. -/
def isDigitC (c : Char) : Bool := '0' ≤ c && c ≤ '9'

/-- JS `\w` word character: `[A-Za-z0-9_]`. -/
def isWordC (c : Char) : Bool :=
  ('a' ≤ c && c ≤ 'z') || ('A' ≤ c && c ≤ 'Z') || isDigitC c || c = '_'

/-- JS `\s` whitespace (the cases that occur in the modelled inputs:
ASCII whitespace plus no-break space). -/
def isSpaceC (c : Char) : Bool :=
  c = ' ' || c = '\t' || c = '\n' || c = '\r' || c = '\x0b' || c = '\x0c' ||
  c = '\u00A0'

/-- ASCII lower-casing, JS `toLowerCase` restricted to the characters the
modelled code compares (ASCII letters; other characters are unchanged). -/
def lowerC (c : Char) : Char :=
  if 'A' ≤ c && c ≤ 'Z' then Char.ofNat (c.toNat + 32) else c

def lowerS (s : List Char) : List Char := s.map lowerC

/-- Boolean list-prefix test. -/
def isPrefixB : List Char → List Char → Bool
  | [], _ => true
  | _ :: _, [] => false
  | a :: as, b :: bs => a = b && isPrefixB as bs

/-- Substring containment, JS `String.prototype.includes`. -/
def containsS : List Char → List Char → Bool
  | hay, needle =>
    match hay with
    | [] => needle.isEmpty
    | _ :: rest => isPrefixB needle hay || containsS rest needle

/-- JS `String.prototype.trim` (both ends). -/
def trimS (s : List Char) : List Char :=
  ((s.dropWhile isSpaceC).reverse.dropWhile isSpaceC).reverse

/-- JS `text.replace(/\s+/g, ' ')`: every maximal whitespace run becomes a
single space (state = previous character was whitespace). -/
def collapseSpacesAux : Bool → List Char → List Char
  | _, [] => []
  | prevSpace, c :: rest =>
    if isSpaceC c then
      if prevSpace then collapseSpacesAux true rest
      else ' ' :: collapseSpacesAux true rest
    else c :: collapseSpacesAux false rest

def collapseSpaces (s : List Char) : List Char := collapseSpacesAux false s

/-- Natural-number value of a digit list (all digits). -/
def digitsVal (ds : List Char) : Nat :=
  ds.foldl (fun acc c => acc * 10 + (c.toNat - '0'.toNat)) 0

/-- JS `parseFloat` on the strings the modelled code produces
(`[sign] digits [ . digits ]`, no exponent occurs): `none` models `NaN`. -/
def jsParseFloat (s : List Char) : Option ℚ :=
  let s := s.dropWhile isSpaceC
  let (neg, s) :=
    match s with
    | '-' :: rest => (true, rest)
    | '+' :: rest => (false, rest)
    | _ => (false, s)
  let intDigits := s.takeWhile isDigitC
  let s1 := s.dropWhile isDigitC
  let fracDigits :=
    match s1 with
    | '.' :: rest => rest.takeWhile isDigitC
    | _ => []
  if intDigits.isEmpty && fracDigits.isEmpty then none
  else
    let v : ℚ := (digitsVal intDigits : ℚ) +
      (digitsVal fracDigits : ℚ) / ((10 : ℚ) ^ fracDigits.length)
    some (if neg then -v else v)

/-- JS `Math.round` (round half toward +∞). -/
def jsRound (q : ℚ) : ℤ := ⌊q + 1/2⌋

/-- Clamp an integer into `[lo, hi]` — `Math.min(hi, Math.max(lo, x))`. -/
def clampI (lo hi x : ℤ) : ℤ := min hi (max lo x)

/-! ## A tiny nondeterministic regex engine

A matcher state records the remaining input, the characters consumed inside
the current capture scope (reversed), and the captured groups.  A matcher
returns the list of possible successor states **in JS backtracking order**
(greedy alternatives first), so `List.head?` of the successes at the
leftmost matching position reproduces `String.prototype.match`. -/

structure MSt where
  rest : List Char
  acc : List Char
  caps : List (Nat × List Char)
  deriving Repr, DecidableEq

def RM := MSt → List MSt

/-- Empty matcher (always succeeds consuming nothing). -/
def rEps : RM := fun s => [s]

/-- Match one character satisfying `p`. -/
def rCh (p : Char → Bool) : RM := fun s =>
  match s.rest with
  | [] => []
  | c :: r => if p c then [{ s with rest := r, acc := c :: s.acc }] else []

/-- Match a literal character. -/
def rLit (c : Char) : RM := rCh (· = c)

/-- Sequencing. -/
def rSeq (a b : RM) : RM := fun s => (a s).flatMap b

def rSeqs : List RM → RM
  | [] => rEps
  | m :: ms => rSeq m (rSeqs ms)

/-- Alternation: the left alternative has priority (JS order). -/
def rAlt (a b : RM) : RM := fun s => a s ++ b s

def rAlts : List RM → RM
  | [] => fun _ => []
  | m :: ms => rAlt m (rAlts ms)

/-- Greedy `?`: try to match first, then skip. -/
def rOpt (a : RM) : RM := fun s => a s ++ [s]

/-- Greedy bounded repetition `a{0,n}` (preferring more repetitions). -/
def rUpTo (a : RM) : Nat → RM
  | 0 => rEps
  | n + 1 => fun s => (a s).flatMap (rUpTo a n) ++ [s]

/-- Greedy `a{min,min+extra}`. -/
def rRep (a : RM) (mn extra : Nat) : RM :=
  rSeq (rSeqs (List.replicate mn a)) (rUpTo a extra)

/-- Match a literal string. -/
def rStr (cs : List Char) : RM := rSeqs (cs.map rLit)

/-- Match a literal string case-insensitively (JS `/i`). -/
def rStrI (cs : List Char) : RM := rSeqs (cs.map fun c => rCh (lowerC · = lowerC c))

/-- Greedy `\s*` (fuelled by input length: each step consumes a char). -/
def rSpaces : RM := fun s => rUpTo (rCh isSpaceC) s.rest.length s

/-- Greedy `\d+` (one digit then any number more). -/
def rDigits1 : RM := fun s => rSeq (rCh isDigitC) (rUpTo (rCh isDigitC) s.rest.length) s

/-- Capture group `i`. -/
def rCap (i : Nat) (a : RM) : RM := fun s =>
  (a { s with acc := [] }).map fun s' =>
    { rest := s'.rest, acc := s'.acc ++ s.acc, caps := (i, s'.acc.reverse) :: s'.caps }

/-- Run a matcher anchored at the current position; successes in
backtracking order. -/
def runAt (a : RM) (cs : List Char) : List MSt :=
  a { rest := cs, acc := [], caps := [] }

/-- All suffixes of `cs`, longest (leftmost start) first. -/
def suffixes : List Char → List (List Char)
  | [] => [[]]
  | c :: rest => (c :: rest) :: suffixes rest

/-- JS `regex.test(text)` for an unanchored regex: a match exists at some
position. -/
def rTest (a : RM) (cs : List Char) : Bool :=
  (suffixes cs).any fun suf => !(runAt a suf).isEmpty

/-- JS `text.match(regex)` for an unanchored regex: the first (leftmost,
then backtracking-order-first) match; returns its capture list. -/
def rFind (a : RM) (cs : List Char) : Option MSt :=
  (suffixes cs).findSome? fun suf => (runAt a suf).head?

/-- Anchored full match `^...$`. -/
def rFullMatch (a : RM) (cs : List Char) : Bool :=
  (runAt a cs).any fun s => s.rest.isEmpty

/-- Look up capture group `i` of a match (JS `match[i]`); `none` models
`undefined` (group did not participate). -/
def capGet (m : MSt) (i : Nat) : Option (List Char) :=
  (m.caps.find? (fun p => p.1 = i)).map Prod.snd

/-- The full matched text of a match (JS `match[0]`). -/
def matchedText (m : MSt) : List Char := m.acc.reverse

/-- Case-insensitive prefix test. -/
def isPrefixICase : List Char → List Char → Bool
  | [], _ => true
  | _ :: _, [] => false
  | a :: as, b :: bs => lowerC a = lowerC b && isPrefixICase as bs

/-- `\bW\b` anchored at the start of `cs` with preceding character `prev`,
case-insensitive.  A word boundary holds where exactly one side is a `\w`
character (out-of-string counts as non-word). -/
def litAtWordB (w : List Char) (prev : Option Char) (cs : List Char) : Bool :=
  match w with
  | [] => false
  | f :: _ =>
    (isWordC f != (match prev with | none => false | some p => isWordC p)) &&
    isPrefixICase w cs &&
    (match w.getLast? with
     | none => false
     | some l =>
       isWordC l != (match (cs.drop w.length).head? with
                     | none => false
                     | some n => isWordC n))

/-- Unanchored search for `\b(w₁|w₂|…)\b` (case-insensitive), scanning
positions left to right with the previous character tracked. -/
def searchWordBAux (alts : List (List Char)) : Option Char → List Char → Bool
  | _, [] => false
  | prev, c :: rest =>
    alts.any (fun w => litAtWordB w prev (c :: rest)) ||
    searchWordBAux alts (some c) rest

def searchWordB (alts : List (List Char)) (cs : List Char) : Bool :=
  searchWordBAux alts none cs

/-- Leftmost `\b(w₁|w₂|…)\b` match (case-insensitive): the first matching
alternative at the leftmost matching position — JS `text.match(...)[1]`. -/
def findWordBAux (alts : List (List Char)) :
    Option Char → List Char → Option (List Char)
  | _, [] => none
  | prev, c :: rest =>
    match alts.find? (fun w => litAtWordB w prev (c :: rest)) with
    | some w => some w
    | none => findWordBAux alts (some c) rest

def findWordB (alts : List (List Char)) (cs : List Char) : Option (List Char) :=
  findWordBAux alts none cs

/-! ## Currency code and symbol tables (from `content.js` / `lib/patterns.js`) -/

/-- The 36 ISO codes of the shared code alternation
`(USD|EUR|GBP|JPY|INR|ILS|CAD|AUD|CHF|CNY|BRL|RUB|KRW|THB|TRY|ZAR|SEK|NOK|DKK|PLN|CZK|HUF|MXN|NZD|SGD|HKD|TWD|AED|SAR|PHP|VND|UAH|RON|ISK|KWD|QAR|EGP)`
(content.js line 1110 and the amount patterns), in alternation order. -/
def isoCodes : List (List Char) :=
  [("USD").data, ("EUR").data, ("GBP").data, ("JPY").data, ("INR").data,
   ("ILS").data, ("CAD").data, ("AUD").data, ("CHF").data, ("CNY").data,
   ("BRL").data, ("RUB").data, ("KRW").data, ("THB").data, ("TRY").data,
   ("ZAR").data, ("SEK").data, ("NOK").data, ("DKK").data, ("PLN").data,
   ("CZK").data, ("HUF").data, ("MXN").data, ("NZD").data, ("SGD").data,
   ("HKD").data, ("TWD").data, ("AED").data, ("SAR").data, ("PHP").data,
   ("VND").data, ("UAH").data, ("RON").data, ("ISK").data, ("KWD").data,
   ("QAR").data, ("EGP").data]

/-- The currency-symbol character class
`[\$€£¥₹₪₽₩฿₺₣₱₫₴]` used throughout `content.js`. -/
def isSymC (c : Char) : Bool :=
  c = '$' || c = '€' || c = '£' || c = '¥' || c = '₹' || c = '₪' || c = '₽' ||
  c = '₩' || c = '฿' || c = '₺' || c = '₣' || c = '₱' || c = '₫' || c = '₴'

/-- The smaller symbol class `[\$€£¥₹₪₽₩]` (perfect-price pattern,
quantity patterns, sibling assembly). -/
def isSymSmallC (c : Char) : Bool :=
  c = '$' || c = '€' || c = '£' || c = '¥' || c = '₹' || c = '₪' || c = '₽' ||
  c = '₩'

/-! ## `normalizePriceText` (content.js 1753–1769) -/

/-- Zero-width characters `[​-‍﻿]`. -/
def isZeroWidthC (c : Char) : Bool :=
  ('​' ≤ c && c ≤ '‍') || c = '﻿'

/-- The prefixes stripped by
`^(?:from|starting at|as low as|only|just|approximately|about|around)\s+`,
in alternation order. -/
def stripPrefixAlts : List (List Char) :=
  [("from").data, ("starting at").data, ("as low as").data, ("only").data,
   ("just").data, ("approximately").data, ("about").data, ("around").data]

/-- The suffixes stripped by `\s+(?:each|per item|\/item|per unit|apiece)$`. -/
def stripSuffixAlts : List (List Char) :=
  [("each").data, ("per item").data, ("/item").data, ("per unit").data,
   ("apiece").data]

/-- Strip a leading `(?:alt)\s+` (case-insensitive, first alternative wins,
the greedy `\s+` removes the whole following whitespace run). -/
def stripLeadingQualifier (s : List Char) : List Char :=
  match stripPrefixAlts.find? (fun p =>
    isPrefixICase p s &&
    (match (s.drop p.length).head? with
     | some c => isSpaceC c
     | none => false)) with
  | some p => (s.drop p.length).dropWhile isSpaceC
  | none => s

/-- Strip a trailing `\s+(?:alt)$` (case-insensitive). -/
def stripTrailingQualifier (s : List Char) : List Char :=
  match stripSuffixAlts.find? (fun p =>
    s.length > p.length &&
    isPrefixICase p (s.drop (s.length - p.length)) &&
    (match (s.take (s.length - p.length)).getLast? with
     | some c => isSpaceC c
     | none => false)) with
  | some p => ((s.take (s.length - p.length)).reverse.dropWhile isSpaceC).reverse
  | none => s

/-- `normalizePriceText` (content.js 1753): remove zero-width characters,
turn no-break spaces into spaces, collapse whitespace, trim, and strip the
qualifier prefixes/suffixes. -/
def normalizePriceText (s : List Char) : List Char :=
  let n := trimS (collapseSpaces
    ((s.filter (fun c => !isZeroWidthC c)).map
      (fun c => if c = '\u00A0' then ' ' else c)))
  stripTrailingQualifier (stripLeadingQualifier n)

/-! ## `detectDecimalSeparator` (content.js 1930–1978) -/

inductive Sep where
  | comma
  | dot
  | nosep
  deriving Repr, DecidableEq

/-- Index of the last occurrence of `c` (JS `lastIndexOf`), `none` if
absent. -/
def lastIdxAux (c : Char) : List Char → Nat → Option Nat
  | [], _ => none
  | x :: rest, i =>
    match lastIdxAux c rest (i + 1) with
    | some j => some j
    | none => if x = c then some i else none

def lastIdx (c : Char) (s : List Char) : Option Nat := lastIdxAux c s 0

/-- `text.slice(i+1).match(/^\d+/)?.[0]?.length || 0`: the length of the
leading digit run after position `i`. -/
def digitsAfter (s : List Char) (i : Nat) : Nat :=
  ((s.drop (i + 1)).takeWhile isDigitC).length

/-- The European-comma-decimal currency list local to
`detectDecimalSeparator` (content.js 1932). -/
def europeanCurrencies : List String :=
  ["EUR", "DKK", "SEK", "NOK", "PLN", "CZK", "HUF", "RON", "BGN", "HRK"]

/-- `detectDecimalSeparator` (content.js 1930). -/
def detectDecimalSeparator (text : List Char) (currency : String) : Sep :=
  let preferComma := europeanCurrencies.contains currency
  match lastIdx ',' text, lastIdx '.' text with
  | some lc, some ld =>
    let afterComma := digitsAfter text lc
    let afterDot := digitsAfter text ld
    if lc > ld && afterComma = 2 then Sep.comma
    else if ld > lc && afterDot = 2 then Sep.dot
    else if lc > ld then Sep.comma else Sep.dot
  | some lc, none =>
    let afterComma := digitsAfter text lc
    if afterComma = 2 || afterComma = 1 then Sep.comma
    else if preferComma then Sep.comma else Sep.dot
  | none, some ld =>
    let afterDot := digitsAfter text ld
    if afterDot = 2 || afterDot = 1 then Sep.dot
    else if preferComma then Sep.comma else Sep.dot
  | none, none => Sep.nosep

/-! ## `extractAmount` (content.js 1981–2084) -/

/-- Replace the first occurrence of a character (non-global JS
`replace(',', '.')`). -/
def replaceFirst (a b : Char) : List Char → List Char
  | [] => []
  | c :: r => if c = a then b :: r else c :: replaceFirst a b r

/-- Symbol class without the dollar sign, `[€£¥₹₪₽₩฿₺₣₱₫₴]`
(pattern 2 of the amount cascade). -/
def isSymNoDollarC (c : Char) : Bool := isSymC c && c ≠ '$'

/-- The shared number token `\d{1,3}(?:[,.\s]\d{3})*(?:[.,]\d{1,2})?`. -/
def rNum : RM := fun s =>
  rSeqs
    [rRep (rCh isDigitC) 1 2,
     fun s' => rUpTo
       (rSeqs [rCh (fun c => c = ',' || c = '.' || isSpaceC c),
               rCh isDigitC, rCh isDigitC, rCh isDigitC]) s'.rest.length s',
     rOpt (rSeqs [rCh (fun c => c = '.' || c = ','), rRep (rCh isDigitC) 1 1])] s

/-- The 36-code alternation as a case-insensitive matcher. -/
def rIsoCodeI : RM := rAlts (isoCodes.map rStrI)

/-- Zero-width `\b` placed after a word character: succeed iff the next
character is absent or not a word character. -/
def rWordBAfterWord : RM := fun s =>
  match s.rest with
  | [] => [s]
  | c :: _ => if isWordC c then [] else [s]

/-- The 15-code alternation of the abbreviated-amount pattern
`(USD|EUR|GBP|JPY|INR|ILS|CAD|AUD|CHF|CNY|BRL|RUB|KRW|THB|TRY)`. -/
def abbrCodes : List (List Char) :=
  [("USD").data, ("EUR").data, ("GBP").data, ("JPY").data, ("INR").data,
   ("ILS").data, ("CAD").data, ("AUD").data, ("CHF").data, ("CNY").data,
   ("BRL").data, ("RUB").data, ("KRW").data, ("THB").data, ("TRY").data]

/-- `/([€£¥₹₪₽₩฿₺₣₱₫₴\$]|USD|…|TRY)\s*(\d+(?:[.,]\d+)?)\s*([KkMmBbTt])\b/i`
(content.js 1996). -/
def rAbbr : RM :=
  rSeqs
    [rCap 1 (rAlt (rCh isSymC) (rAlts (abbrCodes.map rStrI))),
     rSpaces,
     rCap 2 (rSeqs [rDigits1,
       rOpt (rSeqs [rCh (fun c => c = '.' || c = ','), rDigits1])]),
     rSpaces,
     rCap 3 (rCh (fun c => c = 'K' || c = 'k' || c = 'M' || c = 'm' ||
                           c = 'B' || c = 'b' || c = 'T' || c = 't')),
     rWordBAfterWord]

/-- The ordered pattern cascade of `extractAmount` (content.js 2017–2040).
The boolean records whether the JS pattern source contains the literal
substring `\d+` (the fragmented-reassembly marker test of line 2048): it
holds exactly for patterns 9 and 10, whose repetitions are written `\d+`,
and fails for the others, which use bounded counts. -/
def amountPatterns : List (RM × Bool) :=
  [ (rSeqs [rStrI (("US").data), rSpaces, rLit '$', rSpaces, rCap 1 rNum],
     false),
    (rSeqs [rCh isSymNoDollarC, rSpaces, rCap 1 rNum], false),
    (rSeqs [rCh (fun c => c = 'C' || c = 'A' || c = 'N' || c = 'Z' ||
                          c = 'H' || c = 'S' || c = 'R'),
            rLit '$', rSpaces, rCap 1 rNum], false),
    (rSeqs [rStr (("NT$").data), rSpaces, rCap 1 rNum], false),
    (rSeqs [rCap 1 rNum, rSpaces,
            rAlts [rStr (("zł").data), rStr (("Kč").data), rStr (("Ft").data),
                   rStr (("lei").data), rStr (("kr").data)]], false),
    (rSeqs [rLit '$', rSpaces, rCap 1 rNum], false),
    (rSeqs [rOpt rIsoCodeI, rSpaces, rCap 1 rNum, rSpaces, rOpt rIsoCodeI],
     false),
    (rSeqs [rCh (fun c => c = 'د' || c = '.' || c = 'إ' || c = '﷼'),
            rSpaces, rCap 1 rNum], false),
    (rSeqs [rStrI (("US").data), rSpaces, rOpt (rLit '$'), rSpaces,
            rCap 1 rDigits1, rSpaces, rOpt (rLit '.'), rSpaces,
            rCap 2 rDigits1], true),
    (rSeqs [rLit '$', rSpaces, rCap 1 rDigits1, rSpaces, rOpt (rLit '.'),
            rSpaces, rCap 2 rDigits1], true),
    (rCap 1 rNum, false) ]

/-- One iteration of the cascade loop (content.js 2042–2081): on a match,
build `amountStr` (`match[1] || match[2]`, or `match[1] + '.' + match[2]`
for the two fragmented patterns), clean it, pick the decimal separator,
normalise and parse; `none` makes the loop continue with the next
pattern. -/
def tryAmountPattern (text : List Char) (currency : String) (pm : RM × Bool) :
    Option ℚ :=
  match rFind pm.1 text with
  | none => none
  | some m =>
    let c1 := capGet m 1
    let c2 := capGet m 2
    let amountStr0 :=
      match c1 with
      | some g1 => if g1.isEmpty then (c2.getD []) else g1
      | none => c2.getD []
    let amountStr :=
      if pm.2 then
        match c1, c2 with
        | some g1, some g2 =>
          if !g1.isEmpty && !g2.isEmpty then g1 ++ '.' :: g2 else amountStr0
        | _, _ => amountStr0
      else amountStr0
    if amountStr.isEmpty then none
    else
      let cleaned := amountStr.filter (fun c => !isSpaceC c)
      let cleaned2 :=
        match detectDecimalSeparator cleaned currency with
        | Sep.comma => replaceFirst ',' '.' (cleaned.filter (fun c => c ≠ '.'))
        | Sep.dot => cleaned.filter (fun c => c ≠ ',')
        | Sep.nosep => cleaned.filter (fun c => c ≠ ',' && c ≠ '.')
      match jsParseFloat cleaned2 with
      | some r => if 0 < r then some r else none
      | none => none

/-- The text-level part of `extractAmount`: abbreviated amounts first
(`$5k`, `€2.5M`, …, multiplied out and returned unconditionally), then the
pattern cascade. -/
def extractAmountText (text : List Char) (currency : String) : Option ℚ :=
  match rFind rAbbr text with
  | some m =>
    let base := jsParseFloat (replaceFirst ',' '.' ((capGet m 2).getD []))
    let mult : ℚ :=
      match (capGet m 3).getD [] with
      | [c] =>
        if lowerC c = 'k' then 1000
        else if lowerC c = 'm' then 1000000
        else if lowerC c = 'b' then 1000000000
        else if lowerC c = 't' then 1000000000000
        else 1
      | _ => 1
    base.map (· * mult)
  | none => amountPatterns.findSome? (tryAmountPattern text currency)

/-- `extractAmount(text, currency, element)` (content.js 1981).
`fragText` models `extractFragmentedPrice(element)` when an element is
supplied (`none` = no element); the fragmented text replaces the input when
it is non-empty, different and strictly longer. -/
def extractAmount (text0 : List Char) (currency : String)
    (fragText : Option (List Char)) : Option ℚ :=
  let text := normalizePriceText text0
  let text :=
    match fragText with
    | some ft =>
      if !ft.isEmpty && ft ≠ text && text.length < ft.length then ft else text
    | none => text
  extractAmountText text currency

/-! ## `calculateConversion` (content.js 2087–2096) -/

/-- The global `exchangeRates` object: a finite map from currency code to a
(finite) JS number. -/
abbrev RateTable := List (String × ℚ)

/-- `exchangeRates[c]`: `none` models `undefined`. -/
def lookupRate (rates : RateTable) (c : String) : Option ℚ :=
  (rates.find? (fun p => p.1 = c)).map Prod.snd

/-- `calculateConversion(amount, sourceCurrency, targetCurrency)`
(content.js 2087).  The JS guard `!exchangeRates[src] ||
!exchangeRates[tgt]` is true for a missing entry **and for a rate of 0**
(falsiness), modelled by the `none`/`= 0` tests.  With a nonzero source
rate the quotient of exact rationals is finite, so the final
`isNaN/isFinite` guard of line 2095 never fires in the model and the
computed value is returned. -/
def calculateConversion (rates : RateTable) (amount : ℚ)
    (sourceCurrency targetCurrency : String) : Option ℚ :=
  match lookupRate rates sourceCurrency, lookupRate rates targetCurrency with
  | some rs, some rt =>
    if rs = 0 || rt = 0 then none
    else
      let usdAmount := amount / rs
      let convertedAmount := usdAmount * rt
      some convertedAmount
  | _, _ => none

/-! ## `detectCurrency` (content.js 1074–1213) -/

/-- ASCII upper-casing, JS `toUpperCase` on the code strings involved. -/
def upperC (c : Char) : Char :=
  if 'a' ≤ c && c ≤ 'z' then Char.ofNat (c.toNat - 32) else c

def upperS (s : List Char) : List Char := s.map upperC

/-- Method 2: the leftmost word-bounded ISO-code match of
`/\b(USD|…|EGP)\b/i` (content.js 1110), scanning positions left to right
and alternatives in order at each position. -/
def findIsoCodeWordB (cs : List Char) : Option (List Char) :=
  findWordB isoCodes cs

/-- Method 3: the currency-name table (content.js 1119–1146), in object
insertion order; the first name contained in the lowercased text wins. -/
def currencyNames : List (List Char × String) :=
  [(("dollar").data, "USD"), (("dollars").data, "USD"),
   (("euro").data, "EUR"), (("euros").data, "EUR"),
   (("pound").data, "GBP"), (("pounds").data, "GBP"),
   (("yen").data, "JPY"), (("yuan").data, "CNY"),
   (("rupee").data, "INR"), (("rupees").data, "INR"),
   (("shekel").data, "ILS"), (("shekels").data, "ILS"),
   (("ruble").data, "RUB"), (("rubles").data, "RUB"),
   (("franc").data, "CHF"), (("francs").data, "CHF"),
   (("peso").data, "MXN"), (("pesos").data, "MXN"),
   (("won").data, "KRW"), (("baht").data, "THB"),
   (("lira").data, "TRY"), (("rand").data, "ZAR"),
   (("krona").data, "SEK"), (("krone").data, "NOK"),
   (("zloty").data, "PLN"), (("koruna").data, "CZK")]

def findCurrencyName (lowerText : List Char) : Option String :=
  (currencyNames.find? (fun p => containsS lowerText p.1)).map Prod.snd

/-- The dollar-family codes of the bare-`$` page-currency fallback
(content.js 1199). -/
def dollarFamily : List String :=
  ["USD", "CAD", "AUD", "NZD", "HKD", "SGD", "TWD", "MXN"]

/-- Method 4: the ordered symbol chain (content.js 1156–1204), operating on
the normalised text and its lowercased form, with the page currency used
for the bare-`$` and fallback cases. -/
def detectCurrencySymbols (t lower : List Char) (pageCurrency : Option String) :
    Option String :=
  if containsS t (("US $").data) || containsS t (("US$").data) then some ("USD")
  else if containsS t (("AU $").data) || containsS t (("AU$").data) then some ("AUD")
  else if containsS t (("C$").data) || containsS t (("CAD$").data) then some ("CAD")
  else if containsS t (("A$").data) then some ("AUD")
  else if containsS t (("NZ$").data) || containsS t (("NZ $").data) then some ("NZD")
  else if containsS t (("HK$").data) || containsS t (("HK $").data) then some ("HKD")
  else if containsS t (("S$").data) || containsS t (("SG$").data) then some ("SGD")
  else if containsS t (("R$").data) then some ("BRL")
  else if containsS t (("NT$").data) || containsS t (("TW$").data) then some ("TWD")
  else if containsS t (("MX$").data) then some ("MXN")
  else if containsS t (("د.إ").data) || containsS t (("AED").data) then some ("AED")
  else if containsS t (("د.ك").data) || containsS t (("KWD").data) then some ("KWD")
  else if containsS t (("₣").data) || containsS t (("CHF").data) then some ("CHF")
  else if containsS t (("€").data) then some ("EUR")
  else if containsS t (("£").data) then some ("GBP")
  else if containsS t (("₹").data) then some ("INR")
  else if containsS t (("₪").data) then some ("ILS")
  else if containsS t (("₽").data) then some ("RUB")
  else if containsS t (("₩").data) then some ("KRW")
  else if containsS t (("฿").data) then some ("THB")
  else if containsS t (("₺").data) then some ("TRY")
  else if containsS t (("zł").data) then some ("PLN")
  else if containsS t (("Kč").data) then some ("CZK")
  else if containsS t (("Ft").data) then some ("HUF")
  else if containsS t (("lei").data) then some ("RON")
  else if containsS t (("﷼").data) then some ("SAR")
  else if containsS t (("₱").data) then some ("PHP")
  else if containsS t (("₫").data) then some ("VND")
  else if containsS t (("₴").data) then some ("UAH")
  else if containsS t (("¥").data) then
    (if containsS lower (("yuan").data) || containsS lower (("cny").data) ||
        containsS lower (("china").data) then some ("CNY") else some ("JPY"))
  else if containsS t (("kr").data) then
    (if containsS lower (("denmark").data) || containsS lower (("dkk").data)
     then some ("DKK")
     else if containsS lower (("norway").data) || containsS lower (("nok").data)
     then some ("NOK")
     else if containsS lower (("iceland").data) || containsS lower (("isk").data)
     then some ("ISK")
     else some ("SEK"))
  else if containsS t (("$").data) then
    (match pageCurrency with
     | some pc => if dollarFamily.contains pc then some pc else some ("USD")
     | none => some ("USD"))
  else none

/-- `detectCurrency(text, element)` (content.js 1074).  `attrCurrency`
models Method 1, the `data-currency`-style attribute found on the element
or its first three ancestors (`none` when absent, as for plain elements);
`pageCurrency` is the cached page-level currency. -/
def detectCurrency (text : List Char) (attrCurrency pageCurrency : Option String) :
    Option String :=
  match attrCurrency with
  | some c => some (String.mk (upperS c.data))
  | none =>
    let t := trimS (collapseSpaces text)
    match findIsoCodeWordB t with
    | some code => some (String.mk (upperS code))
    | none =>
      let lower := lowerS t
      match findCurrencyName lower with
      | some c => some c
      | none =>
        match detectCurrencySymbols t lower pageCurrency with
        | some c => some c
        | none => pageCurrency

/-! ## `isProbablyPrice` (content.js 1216–1306) -/

/-- `/^\+?\d{1,3}[\s.-]?\(?\d{3}\)?[\s.-]?\d{3}[\s.-]?\d{4}$/` — the
phone-number exclusion. -/
def rPhoneSep : RM := rCh (fun c => isSpaceC c || c = '.' || c = '-')

def rPhone : RM :=
  rSeqs [rOpt (rLit '+'), rRep (rCh isDigitC) 1 2, rOpt rPhoneSep,
         rOpt (rLit '('), rRep (rCh isDigitC) 3 0, rOpt (rLit ')'),
         rOpt rPhoneSep, rRep (rCh isDigitC) 3 0, rOpt rPhoneSep,
         rRep (rCh isDigitC) 4 0]

def isPhoneNumberText (cs : List Char) : Bool := rFullMatch rPhone cs

/-- `\b(19|20)\d{2}\b` anchored at the current position. -/
def yearAtB (prev : Option Char) : List Char → Bool
  | a :: b :: c :: d :: rest =>
    (match prev with | none => true | some p => !isWordC p) &&
    ((a = '1' && b = '9') || (a = '2' && b = '0')) &&
    isDigitC c && isDigitC d &&
    (match rest.head? with | none => true | some n => !isWordC n)
  | _ => false

def hasYearAux : Option Char → List Char → Bool
  | _, [] => false
  | prev, c :: rest => yearAtB prev (c :: rest) || hasYearAux (some c) rest

/-- `/\b(19|20)\d{2}\b/.test(text)`. -/
def hasYear (cs : List Char) : Bool := hasYearAux none cs

/-- `/^[A-Z0-9]+-[A-Z0-9]+-[A-Z0-9]+$/i` — the product-code exclusion. -/
def isAlnumC (c : Char) : Bool :=
  ('A' ≤ c && c ≤ 'Z') || ('a' ≤ c && c ≤ 'z') || isDigitC c

def rAlnum1 : RM := fun s =>
  rSeq (rCh isAlnumC) (rUpTo (rCh isAlnumC) s.rest.length) s

def isProductCodeText (cs : List Char) : Bool :=
  rFullMatch (rSeqs [rAlnum1, rLit '-', rAlnum1, rLit '-', rAlnum1]) cs

/-- `/\d+\s*[x×]\s*\d+/i` — the dimension exclusion. -/
def isDimensionText (cs : List Char) : Bool :=
  rTest (rSeqs [rDigits1, rSpaces,
                rCh (fun c => c = 'x' || c = 'X' || c = '×'),
                rSpaces, rCh isDigitC]) cs

/-- Search for an ISO code with a **right** word boundary only
(the `(?:usd|…)\b` alternative of the currency-signal regex has no `\b` on
the left). -/
def searchCodeRightB : List Char → Bool
  | [] => false
  | c :: rest =>
    isoCodes.any (fun code =>
      isPrefixICase code (c :: rest) &&
      (match ((c :: rest).drop code.length).head? with
       | none => true
       | some n => !isWordC n)) ||
    searchCodeRightB rest

/-- `/[\$€£¥₹₪₽₩฿₺₣₱₫₴]|(?:usd|…|egp)\b/i` — presence of a currency
signal. -/
def hasCurrencySignal (cs : List Char) : Bool :=
  cs.any isSymC || searchCodeRightB cs

/-- `/\b(USD|…|EGP)\s+\d/i` — code followed by an amount. -/
def searchCodeAmountAux : Option Char → List Char → Bool
  | _, [] => false
  | prev, c :: rest =>
    ((match prev with | none => true | some p => !isWordC p) &&
     isoCodes.any (fun code =>
       isPrefixICase code (c :: rest) &&
       (let tail := (c :: rest).drop code.length
        let sp := tail.takeWhile isSpaceC
        !sp.isEmpty &&
        (match (tail.drop sp.length).head? with
         | some d => isDigitC d
         | none => false)))) ||
    searchCodeAmountAux (some c) rest

def hasCodeAmountFormat (cs : List Char) : Bool := searchCodeAmountAux none cs

/-- `/price|cost|amount|total|subtotal|payment|pay/` on class+id. -/
def classIdKeywords : List (List Char) :=
  [("price").data, ("cost").data, ("amount").data, ("total").data,
   ("subtotal").data, ("payment").data, ("pay").data]

/-- `/buy|cart|checkout|purchase|order|add to|price|cost|total|pay|sale|discount|save|offer/`. -/
def priceContextKeywords : List (List Char) :=
  [("buy").data, ("cart").data, ("checkout").data, ("purchase").data,
   ("order").data, ("add to").data, ("price").data, ("cost").data,
   ("total").data, ("pay").data, ("sale").data, ("discount").data,
   ("save").data, ("offer").data]

def containsAny (hay : List Char) (needles : List (List Char)) : Bool :=
  needles.any (containsS hay)

/-- Leftmost match of `/(\d[\d,.\s]*\d|\d)/`: from the first digit, the
greedy run of `[\d,.\s]` cut back to its last digit (alternative 1 needs
length ≥ 2), else the single digit. -/
def trimToLastDigit (run : List Char) : List Char :=
  (run.reverse.dropWhile (fun c => !isDigitC c)).reverse

def findNumMatch : List Char → Option (List Char)
  | [] => none
  | c :: rest =>
    if isDigitC c then
      let run := (c :: rest).takeWhile
        (fun c' => isDigitC c' || c' = ',' || c' = '.' || isSpaceC c')
      let t := trimToLastDigit run
      some (if 2 ≤ t.length then t else [c])
    else findNumMatch rest

/-- `/\d+[.,]\d{2}/.test(text)`. -/
def hasDecimalPattern : List Char → Bool
  | d :: s :: a :: b :: rest =>
    (isDigitC d && (s = '.' || s = ',') && isDigitC a && isDigitC b) ||
    hasDecimalPattern (s :: a :: b :: rest)
  | _ => false

/-- `/^[\$€£¥₹₪₽₩]\s*\d+([.,]\d{2})?$/.test(text)`. -/
def perfectPricePattern (cs : List Char) : Bool :=
  match cs with
  | [] => false
  | c :: rest =>
    isSymSmallC c &&
    (let r1 := rest.dropWhile isSpaceC
     let ds := r1.takeWhile isDigitC
     !ds.isEmpty &&
     (let r2 := r1.drop ds.length
      r2.isEmpty ||
      (match r2 with
       | [s, a, b] => (s = '.' || s = ',') && isDigitC a && isDigitC b
       | _ => false)))

structure Validation where
  isPrice : Bool
  confidence : ℤ
  reason : String
  deriving Repr, DecidableEq

/-- `isProbablyPrice(text, element)` (content.js 1216).  `classAndId` is
`element.className + ' ' + element.id` and `parentText` the parent's
`textContent` (empty when no parent); the element reference itself is
always present in the modelled call sites. -/
def isProbablyPrice (text0 classAndId parentText : List Char) : Validation :=
  if text0.isEmpty then { isPrice := false, confidence := 0, reason := "" }
  else
    let text := trimS (lowerS text0)
    if isPhoneNumberText text then
      { isPrice := false, confidence := 0, reason := "phone_number" }
    else
      let conf1 : ℤ :=
        50 - (if hasYear text && text.length < 10 then 30 else 0)
      if text.contains '%' &&
         !(containsAny text [[ '$' ], [ '€' ], [ '£' ], [ '¥' ]] ||
           containsAny (lowerS text)
             [("usd").data, ("eur").data, ("gbp").data]) then
        { isPrice := false, confidence := 0, reason := "percentage" }
      else if isProductCodeText text then
        { isPrice := false, confidence := 0, reason := "product_code" }
      else if isDimensionText text then
        { isPrice := false, confidence := 0, reason := "dimension" }
      else
        let conf2 := conf1 + (if hasCurrencySignal text then 40 else 0)
        let conf3 := conf2 + (if hasCodeAmountFormat text then 30 else 0)
        let conf4 := conf3 +
          (if containsAny (lowerS classAndId) classIdKeywords then 20 else 0)
        let conf5 := conf4 +
          (if containsAny ((lowerS parentText).take 500) priceContextKeywords
           then 15 else 0)
        let conf6 :=
          match findNumMatch text with
          | some numStr =>
            let numClean := numStr.filter (fun c => c ≠ ',' && !isSpaceC c)
            (match jsParseFloat numClean with
             | some n =>
               if 1/100 ≤ n && n ≤ 999999999 + 99/100 then conf5 + 10
               else conf5 - 20
             | none => conf5 - 20)
          | none => conf5
        let conf7 := conf6 + (if hasDecimalPattern text then 15 else 0)
        let conf8 := conf7 + (if perfectPricePattern text then 20 else 0)
        { isPrice := 60 ≤ conf8,
          confidence := clampI 0 100 conf8,
          reason := if 60 ≤ conf8 then "validated" else "low_confidence" }

/-! ## `analyzeVisualContext` (content.js 1500–1560) -/

/-- The element-side inputs of the visual analysis (computed style and
bounding rectangle).  `colorGreen`/`colorRed` abstract the two rgb-string
regexes of lines 1533–1534; `fontWeight` is the value of
`parseInt(style.fontWeight) || 400`. -/
structure VisualFeatures where
  displayNone : Bool
  visibilityHidden : Bool
  opacityZero : Bool
  width : ℚ
  height : ℚ
  fontSize : ℚ
  fontWeight : ℤ
  colorGreen : Bool
  colorRed : Bool
  rectTop : ℚ
  viewportHeight : ℚ
  deriving Repr, DecidableEq

def analyzeVisualContext (v : VisualFeatures) : ℤ :=
  let isVisible := !v.displayNone && !v.visibilityHidden && !v.opacityZero &&
    decide (0 < v.width) && decide (0 < v.height)
  if !isVisible then 0
  else
    let s1 : ℤ := 50 +
      (if 24 ≤ v.fontSize then 20
       else if 18 ≤ v.fontSize then 15
       else if 14 ≤ v.fontSize then 5
       else -10)
    let s2 := s1 +
      (if 700 ≤ v.fontWeight then 15
       else if 600 ≤ v.fontWeight then 10
       else 0)
    let s3 := s2 + (if v.colorGreen then 10 else 0)
    let s4 := s3 + (if v.colorRed then 5 else 0)
    let s5 := s4 +
      (if v.rectTop < v.viewportHeight * (1/2) then 10
       else if v.viewportHeight * (3/2) < v.rectTop then -5
       else 0)
    let area := v.width * v.height
    let s6 := s5 +
      (if 5000 < area then 15
       else if 2000 < area then 10
       else if area < 500 then -5
       else 0)
    clampI 0 100 s6

/-! ## `analyzeSemanticHTML` (content.js 1563–1599) -/

structure SemanticFeatures where
  itemprop : Option String
  itemtype : Option String
  ariaLabel : Option String
  role : Option String
  dataPrice : Option String
  dataAmount : Option String
  dataCurrency : Option String
  deriving Repr, DecidableEq

/-- JS truthiness of an optional attribute string. -/
def attrTruthy : Option String → Bool
  | none => false
  | some s => !s.isEmpty

def analyzeSemanticHTML (sf : SemanticFeatures) (textContent : List Char) : ℤ :=
  let s1 : ℤ := (if sf.itemprop = some ("price") then 40 else 0)
  let s2 := s1 + (if sf.itemprop = some ("priceCurrency") then 30 else 0)
  let s3 := s2 +
    (if (sf.itemtype.map (fun t => containsS t.data (("Offer").data))).getD false
     then 20 else 0)
  let s4 := s3 +
    (if (sf.itemtype.map (fun t => containsS t.data (("Product").data))).getD false
     then 15 else 0)
  let s5 := s4 +
    (if containsAny (lowerS ((sf.ariaLabel.getD "").data))
        [("price").data, ("cost").data, ("amount").data]
     then 25 else 0)
  let s6 := s5 + (if attrTruthy sf.dataPrice then 35 else 0)
  let s7 := s6 + (if attrTruthy sf.dataAmount then 30 else 0)
  let s8 := s7 + (if attrTruthy sf.dataCurrency then 25 else 0)
  let s9 := s8 +
    (if sf.role = some ("button") &&
        containsAny (lowerS textContent)
          [("buy").data, ("cart").data, ("checkout").data]
     then 10 else 0)
  min 100 s9

/-! ## `scorePriceElement` (content.js 1703–1750) -/

/-- `/buy now|add to cart|checkout|purchase/i` (contextual). -/
def contextualKeywords : List (List Char) :=
  [("buy now").data, ("add to cart").data, ("checkout").data,
   ("purchase").data]

/-- `/product|item|price/i` (contextual, class+id). -/
def productItemPriceKeywords : List (List Char) :=
  [("product").data, ("item").data, ("price").data]

/-- `scorePriceElement(element, text).total`: the weighted composite,
rounded.  `classAndId` is `className + ' ' + id`, `parentText` the parent
`textContent`, `tagName` the lowercased tag, `parentHasPriceClass` models
`element.parentElement?.classList.contains('price')`, and `textContent` is
the element's own text (used by the semantic role check). -/
def scorePriceElement (v : VisualFeatures) (sf : SemanticFeatures)
    (classAndId parentText tagName textContent : List Char)
    (parentHasPriceClass : Bool) (text : List Char) : ℤ :=
  let validation := isProbablyPrice text classAndId parentText
  let visual := analyzeVisualContext v
  let semantic := analyzeSemanticHTML sf textContent
  let contextScore : ℤ := 50 +
    (if containsAny ((lowerS parentText).take 300) contextualKeywords
     then 30 else 0) +
    (if containsAny (lowerS classAndId) productItemPriceKeywords
     then 20 else 0)
  let structScore : ℤ := 50 +
    (if tagName = ("span").data || tagName = ("div").data ||
        tagName = ("strong").data || tagName = ("b").data then 20 else 0) +
    (if parentHasPriceClass then 30 else 0)
  jsRound ((validation.confidence : ℚ) * (25/100) + (visual : ℚ) * (20/100) +
    (semantic : ℚ) * (25/100) + (contextScore : ℚ) * (15/100) +
    (structScore : ℚ) * (15/100))

/-! ## `extractFragmentedPrice` (content.js 1772–1927) -/

/-- One child `span`/`b`/`strong`/`em` of the candidate container:
its `textContent` and its `style` attribute string. -/
structure SpanInfo where
  text : List Char
  style : List Char
  deriving Repr, DecidableEq

def isUpperAlphaC (c : Char) : Bool := 'A' ≤ c && c ≤ 'Z'

/-- `^US\s*\$$`. -/
def isUSDollarFrag (t : List Char) : Bool :=
  match t with
  | 'U' :: 'S' :: rest => (rest.dropWhile isSpaceC) = ['$']
  | _ => false

/-- `FRAGMENTED_PRICE_RULES.aliexpress.validFragmentPattern`
(`lib/patterns.js` 518): `/^(US\s*\$|[A-Z]{2,3}|[\$€£¥₹₪₽₩฿₺₣₱₫₴]|\d+|[.,])$/`. -/
def validFragmentPattern (t : List Char) : Bool :=
  isUSDollarFrag t ||
  ((t.length = 2 || t.length = 3) && t.all isUpperAlphaC) ||
  (match t with | [c] => isSymC c | _ => false) ||
  (!t.isEmpty && t.all isDigitC) ||
  t = ['.'] || t = [',']

/-- The inline currency-fragment classifier of content.js 1807:
`/^(US\s*\$|[A-Z]{3}|[\$€£¥₹₪₽₩฿₺₣₱₫₴])$/` (three letters exactly). -/
def isCurrencyFrag (t : List Char) : Bool :=
  isUSDollarFrag t ||
  (t.length = 3 && t.all isUpperAlphaC) ||
  (match t with | [c] => isSymC c | _ => false)

structure Fragment where
  text : List Char
  isDecimal : Bool
  isDigit : Bool
  isCurrency : Bool
  deriving Repr, DecidableEq

def classifyFragment (t : List Char) : Fragment :=
  { text := t,
    isDecimal := t = ['.'] || t = [','],
    isDigit := !t.isEmpty && t.all isDigitC,
    isCurrency := isCurrencyFrag t }

/-- The reassembly loop of content.js 1823–1849: left to right, no space
around a decimal fragment, none between consecutive digit fragments, a
space after a currency fragment and before a currency fragment that
follows digits. -/
def assembleFragments (frags : List Fragment) : List Char :=
  (frags.foldl
    (fun (acc : List Char × Option Fragment) f =>
      let (reconstructed, prev) := acc
      let sep : List Char :=
        if reconstructed.isEmpty then []
        else if f.isDecimal || (prev.map (·.isDecimal)).getD false then []
        else if f.isDigit && (prev.map (·.isDigit)).getD false then []
        else if (prev.map (·.isCurrency)).getD false then [' ']
        else if f.isCurrency && (prev.map (·.isDigit)).getD false then [' ']
        else []
      (reconstructed ++ sep ++ f.text, some f))
    ([], none)).1

/-- Global `X\s+ → X` (the JS `replace(/X\s+/g, 'X')` with `X` one char):
a single pass dropping every whitespace run that follows `sep`. -/
def repSpAfterAux (sep : Char) : Bool → List Char → List Char
  | _, [] => []
  | afterSep, c :: rest =>
    if afterSep && isSpaceC c then repSpAfterAux sep true rest
    else c :: repSpAfterAux sep (c = sep) rest

def repSpAfter (sep : Char) (s : List Char) : List Char :=
  repSpAfterAux sep false s

/-- Global `\s+X → X`, implemented by reversal. -/
def repSpBefore (sep : Char) (s : List Char) : List Char :=
  (repSpAfterAux sep false s.reverse).reverse

/-- The cleanup of content.js 1854–1859:
`\s+\.`→`.`, `\.\s+`→`.`, `\s+,`→`,`, `,\s+`→`,`, then `trim`. -/
def cleanupReconstructed (s : List Char) : List Char :=
  trimS (repSpAfter ',' (repSpBefore ',' (repSpAfter '.' (repSpBefore '.' s))))

/-- `/[\$€£¥₹₪₽₩฿₺₣₱₫₴]|USD|EUR|GBP|ILS|JPY|CNY/` (fallback check,
content.js 1908). -/
def hasCompleteCurrencyMark (cs : List Char) : Bool :=
  cs.any isSymC ||
  containsAny cs
    [("USD").data, ("EUR").data, ("GBP").data, ("ILS").data,
     ("JPY").data, ("CNY").data]

/-- Count of global matches of `/[\$€£¥₹₪₽₩฿₺₣₱₫₴]\s*\d+/g`
(content.js 1917). -/
def countPriceTokens : List Char → Nat
  | [] => 0
  | c :: rest =>
    if isSymC c then
      let sp := rest.takeWhile isSpaceC
      let after := rest.drop sp.length
      let ds := after.takeWhile isDigitC
      if ds.isEmpty then countPriceTokens rest
      else 1 + countPriceTokens (after.drop ds.length)
    else countPriceTokens rest
termination_by s => s.length
decreasing_by
  · simp
  · simp only [List.length_drop, List.length_cons]
    have h1 : (rest.drop (rest.takeWhile isSpaceC).length).length ≤ rest.length := by
      simp [List.length_drop]
    omega
  · simp

/-- The TreeWalker fallback of content.js 1866–1926.  `allText` models
`getAllText(element)` (the concatenation of the element's visible text
nodes, with the boundary-space insertion of lines 1890–1897) and
`parentAllText` models `getAllText(element.parentElement)` (`none` when
the element has no parent). -/
def fragmentedFallback (allText : List Char) (parentAllText : Option (List Char)) :
    List Char :=
  let combined := allText
  let hasCompletePrice :=
    hasCompleteCurrencyMark combined && combined.any isDigitC
  let combined :=
    if combined.length < 10 && !hasCompletePrice then
      match parentAllText with
      | some pt =>
        if combined.length < pt.length && pt.length < 100 &&
           countPriceTokens pt ≤ 1 then pt
        else combined
      | none => combined
    else combined
  normalizePriceText combined

/-- `extractFragmentedPrice(element)` (content.js 1772): collect and
classify the valid fragments of the child spans, and when the container
has currency metadata or a reasonable fragmentation pattern, reassemble
them; otherwise fall back to the tree walk.  The result is the (possibly
empty) string the JS function returns; a `null` return (no element) is
handled at the call sites. -/
def extractFragmentedPrice (spans : List SpanInfo) (allText : List Char)
    (parentAllText : Option (List Char)) : List Char :=
  if 2 ≤ spans.length then
    let hasCurrencyMetadata := spans.any (fun sp =>
      containsS sp.style (("currency-symbol:").data) ||
      containsS sp.style (("is-price-power:").data))
    let frags := spans.filterMap (fun sp =>
      let t := trimS sp.text
      if t.isEmpty then none
      else if validFragmentPattern t then some (classifyFragment t)
      else none)
    let hasReasonablePattern := 2 ≤ frags.length &&
      frags.any (·.isCurrency) && frags.any (·.isDigit)
    if (hasCurrencyMetadata || hasReasonablePattern) && 2 ≤ frags.length then
      let reconstructed := assembleFragments frags
      if !reconstructed.isEmpty then
        normalizePriceText (cleanupReconstructed reconstructed)
      else fragmentedFallback allText parentAllText
    else fragmentedFallback allText parentAllText
  else fragmentedFallback allText parentAllText

/-! ## `assembleCrossElementPrice` (content.js 1675–1700) -/

/-- `assembleCrossElementPrice(element)`: prepend a single-symbol previous
sibling, append a `.dd` next sibling; `none` when nothing was assembled
(or there is no parent — then both siblings are `none`). -/
def assembleCrossElementPrice (prevSibling nextSibling : Option (List Char))
    (ownText : List Char) : Option (List Char) :=
  let base := trimS ownText
  let base1 :=
    match prevSibling with
    | some p =>
      let pt := trimS p
      if (match pt with | [c] => isSymSmallC c | _ => false) then
        pt ++ ' ' :: base
      else base
    | none => base
  let base2 :=
    match nextSibling with
    | some n =>
      let nt := trimS n
      if (match nt with
          | '.' :: ds => !ds.isEmpty && ds.length ≤ 2 && ds.all isDigitC
          | _ => false) then base1 ++ nt
      else base1
    | none => base1
  if base2 ≠ trimS ownText then some base2 else none

/-! ## `detectMultiCurrency` (content.js 1644–1672) -/

structure MultiCurrencyResult where
  isMultiCurrency : Bool
  primaryPrice : List Char
  deriving Repr, DecidableEq

/-- `\d+[.,]?\d*` (greedy). -/
def rLooseNum : RM := fun s =>
  rSeqs [rDigits1, rOpt (rCh (fun c => c = '.' || c = ',')),
         fun s' => rUpTo (rCh isDigitC) s'.rest.length s'] s

/-- `/(?:([\$€£¥₹₪₽₩]|USD|EUR|GBP|JPY)\s*(\d+[.,]?\d*))\s*\(([^)]+)\)/i`. -/
def rMultiCurrency : RM :=
  rSeqs
    [rCap 1 (rAlts [rCh isSymSmallC, rStrI (("USD").data), rStrI (("EUR").data),
                    rStrI (("GBP").data), rStrI (("JPY").data)]),
     rSpaces, rCap 2 rLooseNum, rSpaces, rLit '(',
     rCap 3 (fun s => rSeq (rCh (· ≠ ')'))
       (rUpTo (rCh (· ≠ ')')) s.rest.length) s),
     rLit ')']

def detectMultiCurrency (text : List Char) : MultiCurrencyResult :=
  match rFind rMultiCurrency text with
  | some m =>
    (match capGet m 1, capGet m 2 with
     | some g1, some g2 =>
       if g1.isEmpty || g2.isEmpty then
         { isMultiCurrency := false, primaryPrice := [] }
       else
         { isMultiCurrency := true, primaryPrice := g1 ++ ' ' :: g2 }
     | _, _ => { isMultiCurrency := false, primaryPrice := [] })
  | none => { isMultiCurrency := false, primaryPrice := [] }

/-! ## `detectQuantityPricing` (content.js 1602–1641) -/

structure QuantityResult where
  isQuantityPrice : Bool
  shouldSkip : Bool
  priceText : List Char
  deriving Repr, DecidableEq

/-- `\s+`. -/
def rSpaces1 : RM := fun s => rSeq (rCh isSpaceC) rSpaces s

/-- `/(\d+)\s+for\s+([\$€£¥₹₪₽₩]\s*\d+[.,]?\d*)/i`. -/
def rQuantityFor : RM :=
  rSeqs [rCap 1 rDigits1, rSpaces1, rStrI (("for").data), rSpaces1,
         rCap 2 (rSeqs [rCh isSymSmallC, rSpaces, rLooseNum])]

/-- `/([\$€£¥₹₪₽₩]\s*\d+[.,]?\d*)\s+(?:each|per item|per unit|apiece)/i`. -/
def rQuantityEach : RM :=
  rSeqs [rCap 1 (rSeqs [rCh isSymSmallC, rSpaces, rLooseNum]), rSpaces1,
         rAlts [rStrI (("each").data), rStrI (("per item").data),
                rStrI (("per unit").data), rStrI (("apiece").data)]]

/-- `/buy\s+\d+\s+get\s+\d+/i`. -/
def rBuyGet : RM :=
  rSeqs [rStrI (("buy").data), rSpaces1, rDigits1, rSpaces1,
         rStrI (("get").data), rSpaces1, rDigits1]

def detectQuantityPricing (text : List Char) : QuantityResult :=
  if text.isEmpty then
    { isQuantityPrice := false, shouldSkip := false, priceText := [] }
  else
    match rFind rQuantityFor text with
    | some m =>
      { isQuantityPrice := true, shouldSkip := false,
        priceText := (capGet m 2).getD ((capGet m 1).getD []) }
    | none =>
      match rFind rQuantityEach text with
      | some m =>
        { isQuantityPrice := true, shouldSkip := false,
          priceText := (capGet m 1).getD [] }
      | none =>
        match rFind rBuyGet text with
        | some _ =>
          { isQuantityPrice := true, shouldSkip := true, priceText := [] }
        | none =>
          { isQuantityPrice := false, shouldSkip := false, priceText := [] }

/-! ## `isShippingCost` / `detectSalePrice` (content.js 1459–1497) -/

def shippingKeywords : List (List Char) :=
  [("shipping").data, ("delivery").data, ("freight").data, ("postage").data,
   ("handling").data, ("ship").data, ("s&h").data, ("s/h").data]

def isShippingCost (textContent classAndId parentText : List Char) : Bool :=
  searchWordB shippingKeywords (lowerS textContent) ||
  searchWordB shippingKeywords (lowerS classAndId) ||
  searchWordB shippingKeywords ((lowerS parentText).take 200)

structure SaleResult where
  isOldPrice : Bool
  isSaleContext : Bool
  confidence : ℤ
  deriving Repr, DecidableEq

def saleKeywordAlts : List (List Char) :=
  [("was").data, ("originally").data, ("reg.").data, ("regular").data,
   ("list price").data, ("compare at").data, ("msrp").data, ("rrp").data]

def discountKeywordAlts : List (List Char) :=
  [("save").data, ("off").data, ("discount").data, ("sale").data,
   ("clearance").data, ("reduced").data]

def saleClassKeywords : List (List Char) :=
  [("strike").data, ("through").data, ("original").data, ("was").data,
   ("old").data, ("compare").data, ("regular").data, ("msrp").data,
   ("rrp").data]

/-- `detectSalePrice(element)` (content.js 1459).  `strikethrough` models
the computed-style `line-through` test of lines 1464–1465. -/
def detectSalePrice (strikethrough : Bool)
    (textContent parentText classAndId : List Char) : SaleResult :=
  let text := lowerS textContent
  let hasSaleKeywords := searchWordB saleKeywordAlts text
  let parentT := lowerS parentText
  let hasDiscountContext := searchWordB discountKeywordAlts parentT
  let hasSaleClass := containsAny (lowerS classAndId) saleClassKeywords
  { isOldPrice := strikethrough || hasSaleKeywords || hasSaleClass,
    isSaleContext := hasDiscountContext,
    confidence := (if strikethrough then 40 else 0) +
      (if hasSaleKeywords then 30 else 0) +
      (if hasSaleClass then 20 else 0) +
      (if hasDiscountContext then 10 else 0) }

/-! ## Price ranges (`PRICE_RANGE_REGEX` of `lib/regex.js` 160/167 and
`detectPriceRange` of content.js 1309–1406)

Both range regexes
`/(?:(?:US|C|A|NZ|HK|S|R|NT)\s*)?([$€…])\s*(\d+(?:[.,]\d+)?)\s*SEP\s*(?:(?:US|C|A|NZ|HK|S|R|NT)\s*)?([$€…])?\s*(\d+(?:[.,]\d+)?)|(?:([A-Z]{3})\s+)?(\d+(?:[.,]\d+)?)\s*SEP\s*(\d+(?:[.,]\d+)?)\s*([A-Z]{3})?/i`
have exactly **8** capturing groups: in the symbol alternative groups 1–4
are `symbol₁, price₁, symbol₂?, price₂` and groups 5–8 do not participate;
in the code alternative groups 1–4 do not participate and groups 5–8 are
`code₁?, price₁, price₂, code₂?`.  `detectPriceRange` however reads the
groups of a **10-group** layout (its comment block, content.js 1331–1334).
We model a regex-engine result abstractly as a `RangeMatch` (8 optional
groups) constrained by the shape invariant `RangeMatch.WF` that every
actual match of these regexes satisfies, and transliterate the parsing
logic on top of it. -/

structure RangeMatch where
  full : List Char
  g1 : Option (List Char)
  g2 : Option (List Char)
  g3 : Option (List Char)
  g4 : Option (List Char)
  g5 : Option (List Char)
  g6 : Option (List Char)
  g7 : Option (List Char)
  g8 : Option (List Char)
  deriving Repr, DecidableEq

/-- `match[i]` for the 8-group regexes: groups 9 and 10 (read by
`detectPriceRange`) are always `undefined`. -/
def RangeMatch.grp (m : RangeMatch) : Nat → Option (List Char)
  | 1 => m.g1
  | 2 => m.g2
  | 3 => m.g3
  | 4 => m.g4
  | 5 => m.g5
  | 6 => m.g6
  | 7 => m.g7
  | 8 => m.g8
  | _ => none

/-- Shape invariant of a match of the 8-group range regexes: either the
symbol alternative participated (groups 1, 2, 4 present, 2 and 4 nonempty
digit strings — `\d+…` is nonempty — groups 5–8 absent), or the code
alternative did (groups 1–4 absent, 6 and 7 present nonempty). -/
def RangeMatch.WF (m : RangeMatch) : Prop :=
  (m.g1.isSome ∧ (∃ s, m.g2 = some s ∧ s ≠ []) ∧ (∃ s, m.g4 = some s ∧ s ≠ []) ∧
   m.g5 = none ∧ m.g6 = none ∧ m.g7 = none ∧ m.g8 = none) ∨
  (m.g1 = none ∧ m.g2 = none ∧ m.g3 = none ∧ m.g4 = none ∧
   (∃ s, m.g6 = some s ∧ s ≠ []) ∧ (∃ s, m.g7 = some s ∧ s ≠ []))

/-- JS truthiness of `match[i]`: participating and nonempty. -/
def jsTruthy : Option (List Char) → Bool
  | none => false
  | some s => !s.isEmpty

/-- JS `a || b` on optional strings. -/
def jsOr (a b : Option (List Char)) : Option (List Char) :=
  if jsTruthy a then a else b

structure RangeResult where
  isRange : Bool
  minPrice : ℚ
  maxPrice : ℚ
  currency : Option String
  currencySymbol : List Char
  separator : List Char
  fullMatch : List Char
  deriving Repr, DecidableEq

def noRange : RangeResult :=
  { isRange := false, minPrice := 0, maxPrice := 0, currency := none,
    currencySymbol := [], separator := [], fullMatch := [] }

/-- The group-parsing logic of `detectPriceRange` (content.js 1329–1401),
applied to the dash-pattern match (tried first) or, failing that, to the
"to"-pattern match.  The indices
are those the code reads against its assumed 10-group layout. -/
def parseRangeMatch (mMain mTo : Option RangeMatch)
    (pageCurrency : Option String) : RangeResult :=
  let pick : Option (RangeMatch × List Char) :=
    match mMain with
    | some m => some (m, ("-").data)
    | none =>
      match mTo with
      | some m => some (m, ("to").data)
      | none => none
  match pick with
  | none => noRange
  | some (m, sep) =>
    let (currencyCode, currencySymbol, minPrice, maxPrice) :=
      if jsTruthy (m.grp 2) then
        (jsOr (m.grp 1) (m.grp 4), jsOr (m.grp 2) (m.grp 5),
         m.grp 3, m.grp 6)
      else if jsTruthy (m.grp 8) then
        (jsOr (m.grp 7) (m.grp 10), some [], m.grp 8, m.grp 9)
      else
        (jsOr (jsOr (m.grp 1) (m.grp 4)) (m.grp 7),
         jsOr (m.grp 2) (m.grp 5), m.grp 3, m.grp 6)
    if !jsTruthy minPrice || !jsTruthy maxPrice then noRange
    else
      let currencyText :=
        if jsTruthy currencyCode && jsTruthy currencySymbol then
          currencyCode.getD [] ++ currencySymbol.getD []
        else if jsTruthy currencyCode then currencyCode.getD []
        else if jsTruthy currencySymbol then currencySymbol.getD []
        else []
      if currencyText.isEmpty then noRange
      else
        match detectCurrency currencyText none pageCurrency with
        | none => noRange
        | some detected =>
          { isRange := true,
            minPrice := (jsParseFloat (replaceFirst ',' '.' (minPrice.getD []))).getD 0,
            maxPrice := (jsParseFloat (replaceFirst ',' '.' (maxPrice.getD []))).getD 0,
            currency := some detected,
            currencySymbol := currencySymbol.getD [],
            separator := sep,
            fullMatch := m.full }

/-- `detectPriceRange(text)` parameterised by the two regex engines
(`text.match(PRICE_RANGE_REGEX)` and `text.match(PRICE_RANGE_TO_REGEX)`). -/
def detectPriceRange (matchMain matchTo : List Char → Option RangeMatch)
    (pageCurrency : Option String) (text : List Char) : RangeResult :=
  if text.isEmpty then noRange
  else parseRangeMatch (matchMain text) (matchTo text) pageCurrency

/-! ## `getCurrencySymbol` (`lib/patterns.js` 663–704) -/

def currencySymbolTable : List (String × String) :=
  [("USD", "$"), ("EUR", "€"), ("GBP", "£"), ("JPY", "¥"), ("INR", "₹"),
   ("ILS", "₪"), ("RUB", "₽"), ("KRW", "₩"), ("THB", "฿"), ("TRY", "₺"),
   ("CAD", "C$"), ("AUD", "A$"), ("NZD", "NZ$"), ("HKD", "HK$"), ("SGD", "S$"),
   ("BRL", "R$"), ("ZAR", "R"), ("SEK", "kr"), ("NOK", "kr"), ("DKK", "kr"),
   ("PLN", "zł"), ("CZK", "Kč"), ("HUF", "Ft"), ("RON", "lei"), ("TWD", "NT$"),
   ("AED", "د.إ"), ("SAR", "﷼"), ("PHP", "₱"), ("VND", "₫"), ("UAH", "₴"),
   ("CHF", "₣"), ("MXN", "$"), ("CNY", "¥"), ("ISK", "kr"), ("KWD", "د.ك"),
   ("QAR", "﷼"), ("EGP", "£"), ("BGN", "лв"), ("HRK", "kn"), ("ALL", "L"),
   ("ARS", "$"), ("CLP", "$"), ("COP", "$"), ("PEN", "S/"), ("UYU", "$"),
   ("VEF", "Bs"), ("BOB", "Bs"), ("CRC", "₡"), ("DOP", "RD$"), ("GTQ", "Q"),
   ("PYG", "₲"), ("HNL", "L"), ("NIO", "C$"), ("PAB", "B/."), ("JMD", "J$"),
   ("MYR", "RM"), ("IDR", "Rp"), ("PKR", "₨"), ("BDT", "৳"), ("LKR", "Rs"),
   ("NPR", "Rs"), ("MMK", "K"), ("KHR", "៛"), ("LAK", "₭"), ("AFN", "؋"),
   ("BHD", "د.ب"), ("OMR", "﷼"), ("JOD", "د.ا"), ("LBP", "ل.ل"),
   ("IQD", "ع.د"), ("SYP", "£"), ("YER", "﷼"), ("SDG", "£"),
   ("NGN", "₦"), ("KES", "KSh"), ("GHS", "₵"), ("MAD", "د.م."), ("TZS", "TSh"),
   ("UGX", "USh"), ("ETB", "Br"), ("DZD", "د.ج"), ("TND", "د.ت"), ("LYD", "ل.د"),
   ("MUR", "₨"), ("NAD", "$"), ("BWP", "P"), ("MZN", "MT"), ("XOF", "CFA"),
   ("XAF", "CFA"),
   ("MKD", "ден"), ("RSD", "дин"), ("BAM", "KM"), ("GEL", "₾"), ("AMD", "֏"),
   ("AZN", "₼"), ("BYN", "Br"), ("MDL", "L"), ("KZT", "₸"),
   ("BTC", "₿"), ("ETH", "Ξ"), ("USDT", "₮"), ("USDC", "$"), ("BNB", "BNB"),
   ("XRP", "XRP"), ("ADA", "₳"), ("SOL", "SOL"), ("DOGE", "Ð"), ("DOT", "DOT"),
   ("MATIC", "MATIC"), ("LTC", "Ł"), ("BCH", "BCH"), ("LINK", "LINK"),
   ("XLM", "XLM"), ("ATOM", "ATOM")]

/-- `getCurrencySymbol(code)`: `symbols[code] || code`. -/
def getCurrencySymbol (code : String) : List Char :=
  match currencySymbolTable.find? (fun p => p.1 = code) with
  | some p => p.2.data
  | none => code.data

/-! ## Number formatting (`toFixed(2)`, thousands grouping) -/

/-- `Number.prototype.toFixed(d)` on the exact rational model: the integer
`n` with `n/10^d` closest to the value, ties to the larger `n`. -/
def jsToFixed (q : ℚ) (d : Nat) : List Char :=
  let n : ℤ := ⌊q * (10 : ℚ) ^ d + 1/2⌋
  let sign : List Char := if n < 0 then ['-'] else []
  let m := n.natAbs
  let intPart := m / 10 ^ d
  let frac := m % 10 ^ d
  if d = 0 then sign ++ Nat.toDigits 10 intPart
  else
    let fs := Nat.toDigits 10 frac
    sign ++ Nat.toDigits 10 intPart ++ '.' ::
      (List.replicate (d - fs.length) '0' ++ fs)

/-- `parts[0].replace(/\B(?=(\d{3})+(?!\d))/g, ',')`: thousands grouping
of a digit string, commas every three digits from the right. -/
def groupThousandsAux : List Char → Nat → List Char
  | [], _ => []
  | c :: rest, n =>
    c :: (if (n + 1) % 3 = 0 && !rest.isEmpty then
            ',' :: groupThousandsAux rest (n + 1)
          else groupThousandsAux rest (n + 1))

def groupThousands (ds : List Char) : List Char :=
  (groupThousandsAux ds.reverse 0).reverse

/-- Apply grouping to the integer part of a formatted number
(`split('.')`, group `parts[0]`, rejoin). -/
def groupFormatted (s : List Char) : List Char :=
  let intPart := s.takeWhile (· ≠ '.')
  let rest := s.dropWhile (· ≠ '.')
  groupThousands intPart ++ rest

/-! ## `convertPriceRange` (content.js 1414–1456) -/

/-- `convertPriceRange(rangeData, targetCurrency)`: convert **both**
endpoints, format them, and build
`symbol·min·sep·symbol·max· ·CODE`; `none` when a rate is missing or
zero (JS falsiness of `!sourceRate || !targetRate`). -/
def convertPriceRange (rates : RateTable) (st_useThousandSeparator : Bool)
    (st_decimalPlaces : Nat) (rangeData : RangeResult) (targetCurrency : String) :
    Option (List Char) :=
  match lookupRate rates (rangeData.currency.getD ""),
        lookupRate rates targetCurrency with
  | some sourceRate, some targetRate =>
    if sourceRate = 0 || targetRate = 0 then none
    else
      let convertedMin := rangeData.minPrice / sourceRate * targetRate
      let convertedMax := rangeData.maxPrice / sourceRate * targetRate
      let fmtMin0 := jsToFixed convertedMin st_decimalPlaces
      let fmtMax0 := jsToFixed convertedMax st_decimalPlaces
      let fmtMin := if st_useThousandSeparator then groupFormatted fmtMin0 else fmtMin0
      let fmtMax := if st_useThousandSeparator then groupFormatted fmtMax0 else fmtMax0
      let sym := getCurrencySymbol targetCurrency
      some (sym ++ fmtMin ++ rangeData.separator ++ sym ++ fmtMax ++
        ' ' :: targetCurrency.data)
  | _, _ => none

/-! ## `generateConvertedText` (content.js 408–467) -/

/-- `/\b(USD|…|EGP)\s+[\d.,]+/i`. -/
def searchFullCodeNumAux : Option Char → List Char → Bool
  | _, [] => false
  | prev, c :: rest =>
    ((match prev with | none => true | some p => !isWordC p) &&
     isoCodes.any (fun code =>
       isPrefixICase code (c :: rest) &&
       (let tail := (c :: rest).drop code.length
        let sp := tail.takeWhile isSpaceC
        !sp.isEmpty &&
        (match (tail.drop sp.length).head? with
         | some d => isDigitC d || d = '.' || d = ','
         | none => false)))) ||
    searchFullCodeNumAux (some c) rest

def searchFullCodeNum (cs : List Char) : Bool := searchFullCodeNumAux none cs

/-- `/\b(US|HK|AU|CA|NZ|SG|C|A|S)\s*[\$€£¥₹₪₽₩]/i`, alternatives in
order. -/
def shortCodes : List (List Char) :=
  [("US").data, ("HK").data, ("AU").data, ("CA").data, ("NZ").data,
   ("SG").data, ("C").data, ("A").data, ("S").data]

def searchShortCodeSymAux : Option Char → List Char → Bool
  | _, [] => false
  | prev, c :: rest =>
    ((match prev with | none => true | some p => !isWordC p) &&
     shortCodes.any (fun code =>
       isPrefixICase code (c :: rest) &&
       (let tail := ((c :: rest).drop code.length).dropWhile isSpaceC
        match tail.head? with
        | some s => isSymSmallC s
        | none => false))) ||
    searchShortCodeSymAux (some c) rest

def searchShortCodeSym (cs : List Char) : Bool := searchShortCodeSymAux none cs

/-- `/[\$€£¥₹₪₽₩]\s+\d/`. -/
def hasSpaceAfterSymbolDigit : List Char → Bool
  | [] => false
  | c :: rest =>
    (isSymSmallC c &&
     (let sp := rest.takeWhile isSpaceC
      !sp.isEmpty &&
      (match (rest.drop sp.length).head? with
       | some d => isDigitC d
       | none => false))) ||
    hasSpaceAfterSymbolDigit rest

/-- `generateConvertedText(originalPrice, convertedAmount, targetCurrency)`
(content.js 408): choose the output structure from the structure of the
original price and preserve the surrounding whitespace. -/
def generateConvertedText (originalPrice : List Char) (convertedAmount : ℚ)
    (targetCurrency : String) : List Char :=
  let targetSymbol := getCurrencySymbol targetCurrency
  let leading := originalPrice.takeWhile isSpaceC
  let trailing := (originalPrice.reverse.takeWhile isSpaceC).reverse
  let trimmedPrice := trimS originalPrice
  let hasFullCode := searchFullCodeNum trimmedPrice
  let hasShortCodeWithSymbol := searchShortCodeSym trimmedPrice
  let hasSymbol := trimmedPrice.any isSymSmallC
  let spacer : List Char :=
    if hasSpaceAfterSymbolDigit trimmedPrice then [' '] else []
  let fixed := jsToFixed convertedAmount 2
  let result :=
    if hasFullCode && !hasSymbol then
      targetCurrency.data ++ ' ' :: fixed
    else if hasShortCodeWithSymbol then
      targetCurrency.data ++ ' ' :: (targetSymbol ++ spacer ++ fixed)
    else targetSymbol ++ spacer ++ fixed
  leading ++ result ++ trailing

/-! ## The selector-based scan pass of `convertPrices`
(content.js 3584–3816) and `applyConversion` (content.js 2402–2468)

DOM-derived inputs of the loop body are collected in `ElemFeatures`;
the mutable element state (text content, `title`, `data-*` records,
membership in the `processedElements` WeakSet) is `ElemState`. -/

structure Settings where
  defaultTargetCurrency : String
  replacePrice : Bool
  showInlineConversion : Bool
  useThousandSeparator : Bool
  decimalPlacesFixed : Nat
  deriving Repr, DecidableEq

/-- Immutable element-side inputs of one candidate element. -/
structure ElemFeatures where
  /-- child `span`/`b`/`strong`/`em` elements (text and style attribute) -/
  spans : List SpanInfo
  /-- `getAllText(element)` for the fragmented-price fallback -/
  allText : List Char
  /-- `getAllText(element.parentElement)`; `none` when no parent -/
  parentAllText : Option (List Char)
  prevSibling : Option (List Char)
  nextSibling : Option (List Char)
  visual : VisualFeatures
  semantic : SemanticFeatures
  className : List Char
  idAttr : List Char
  /-- the parent's `textContent` (empty when no parent) -/
  parentText : List Char
  tagName : List Char
  parentHasPriceClass : Bool
  /-- `element.querySelector('.a-price-symbol, …') !== null` (line 3672) -/
  hasAmazonPriceStructure : Bool
  strikethrough : Bool
  /-- the `data-currency`-style attribute of Method 1 of `detectCurrency` -/
  attrCurrency : Option String
  /-- further attributes read by the semantic pass (content.js 2511–2520) -/
  dataCost : Option String
  dataValue : Option String
  dataPriceAmount : Option String
  dataProductPrice : Option String
  dataSalePrice : Option String
  dataRegularPrice : Option String
  contentAttr : Option String
  deriving Repr

structure ElemState where
  feats : ElemFeatures
  textContent : List Char
  title : Option (List Char)
  datasetConverted : Bool
  datasetOriginalPrice : Option (List Char)
  datasetConvertedText : Option (List Char)
  processed : Bool
  deriving Repr

structure Config where
  settings : Settings
  rates : RateTable
  pageCurrency : Option String
  /-- the regex engine for `PRICE_RANGE_REGEX` -/
  matchMain : List Char → Option RangeMatch
  /-- the regex engine for `PRICE_RANGE_TO_REGEX` -/
  matchTo : List Char → Option RangeMatch

/-- A range-regex engine is well-formed when every match it returns has
the 8-group shape. -/
def RangeEngineWF (f : List Char → Option RangeMatch) : Prop :=
  ∀ t m, f t = some m → m.WF

/-- `FRAGMENTED_PRICE_RULES.aliexpress.stylePatterns`
(`lib/patterns.js` 500). -/
def aliStylePatterns : List (List Char) :=
  [("currency-symbol:").data, ("is-price-power:").data,
   ("decimal_point:").data, ("comma_style:").data,
   ("show-decimal:").data, ("symbol_position:").data]

/-- `FRAGMENTED_PRICE_RULES.aliexpress.containerClasses`
(`lib/patterns.js` 509). -/
def aliContainerClasses : List (List Char) :=
  [("k7_gz").data, ("k7_lu").data, ("kr_lo").data, ("_3Mpbo").data]

/-- Method 2 of the fragmentation check (content.js 3676). -/
def hasAliMetadata (spans : List SpanInfo) : Bool :=
  spans.any (fun sp => aliStylePatterns.any (containsS sp.style))

/-- Method 3 (content.js 3689). -/
def hasAliContainer (className : List Char) : Bool :=
  aliContainerClasses.any (containsS className)

/-- Method 4 (content.js 3697): a small span of price-fragment
characters `/^[\d\.$€£¥₹₪₽₩,.]+$/`. -/
def isSmallSpanChar (c : Char) : Bool :=
  isDigitC c || c = '.' || c = ',' || c = '$' || c = '€' || c = '£' ||
  c = '¥' || c = '₹' || c = '₪' || c = '₽' || c = '₩'

def hasSmallSpans (spans : List SpanInfo) : Bool :=
  spans.any (fun sp =>
    let t := trimS sp.text
    t.length ≤ 3 && !t.isEmpty && t.all isSmallSpanChar)

/-- The currency test of the fragmentation check (content.js 3702):
`/[\$€£¥₹₪₽₩]|USD|EUR|GBP|ILS|JPY|CNY|US\s*\$/` (case-sensitive). -/
def hasCurrencySymbolForFrag (cs : List Char) : Bool :=
  cs.any isSymSmallC ||
  containsAny cs
    [("USD").data, ("EUR").data, ("GBP").data, ("ILS").data,
     ("JPY").data, ("CNY").data] ||
  rTest (rSeqs [rStr (("US").data), rSpaces, rLit '$']) cs

/-- The number-to-string conversion of the dead single-value range
rewrite (content.js 3795, `priceRange.minPrice + ' ' + …`): integral
values print without a decimal point.  This line is unreachable under a
well-formed range engine (`parseRange_never_isRange` below), so only the
integral case, which is exact, matters. -/
def jsNumberToString (q : ℚ) : List Char :=
  if q.den = 1 then
    (if q < 0 then ['-'] else []) ++ Nat.toDigits 10 q.num.natAbs
  else jsToFixed q 2

/-- The decision data of a loop iteration (content.js 3589–3812): each
constructor is one exit point of the body; `converted` and
`rangeConverted` carry the data the mutation needs. -/
inductive Outcome where
  | skippedDatasetConverted
  | skippedEmptyOrLong
  | emptyNormalized
  | rangeConverted (txt : List Char)
  | rangeSameCurrency
  | skippedLowConfidence
  | skippedBulkOffer
  | skippedShipping
  | skippedOldPrice
  | noCurrency
  | skippedSameCurrency
  | noAmount
  | noConversion
  | converted (src : String) (amount convertedAmount : ℚ)
  deriving Repr, DecidableEq

/-- `element.className + ' ' + element.id`. -/
def elemClassAndId (e : ElemState) : List Char :=
  e.feats.className ++ ' ' :: e.feats.idAttr

/-- The range-branch decision of the loop body (content.js 3602–3656):
`some o` when the branch ends the iteration with outcome `o`, `none` when
execution falls through to regular processing (no range, or a failed range
conversion). -/
def rangeBranch (cfg : Config) (e : ElemState) : Option Outcome :=
  let rangeData := detectPriceRange cfg.matchMain cfg.matchTo
    cfg.pageCurrency e.textContent
  if rangeData.isRange then
    if (rangeData.currency.map (fun c => !c.isEmpty)).getD false &&
       rangeData.currency ≠ some cfg.settings.defaultTargetCurrency then
      match convertPriceRange cfg.rates cfg.settings.useThousandSeparator
        cfg.settings.decimalPlacesFixed rangeData
        cfg.settings.defaultTargetCurrency with
      | some cr => some (.rangeConverted cr)
      | none => none
    else some .rangeSameCurrency
  else none

/-- The fragmentation step (content.js 3662–3731): the fragmented flag and
the working text after fragmented extraction and cross-element assembly.
Its input is the normalised text `normalizePriceText e.textContent`. -/
def candidateFrag (e : ElemState) : Bool × List Char :=
  let text0 := normalizePriceText e.textContent
  let spans := e.feats.spans
  let fragPair : Bool × List Char :=
    if 2 ≤ spans.length then
      if (e.feats.hasAmazonPriceStructure || hasAliMetadata spans ||
          hasAliContainer e.feats.className || hasSmallSpans spans) &&
         hasCurrencySymbolForFrag text0 then
        let fp := extractFragmentedPrice spans e.feats.allText
          e.feats.parentAllText
        (true, if !fp.isEmpty then fp else text0)
      else (false, text0)
    else (false, text0)
  let text2 :=
    match assembleCrossElementPrice e.feats.prevSibling
      e.feats.nextSibling e.textContent with
    | some a => a
    | none => fragPair.2
  (fragPair.1, text2)

/-- `scorePriceElement(element, text)` at the working text. -/
def candidateScore (e : ElemState) : ℤ :=
  scorePriceElement e.feats.visual e.feats.semantic (elemClassAndId e)
    e.feats.parentText e.feats.tagName e.textContent
    e.feats.parentHasPriceClass (candidateFrag e).2

/-- The working text after the multi-currency reduction (content.js 3749). -/
def candidateText3 (e : ElemState) : List Char :=
  let text2 := (candidateFrag e).2
  let mc := detectMultiCurrency text2
  if mc.isMultiCurrency then mc.primaryPrice else text2

def candidateQuantity (e : ElemState) : QuantityResult :=
  detectQuantityPricing (candidateText3 e)

/-- The working text after quantity extraction (content.js 3756–3765). -/
def candidateText4 (e : ElemState) : List Char :=
  let qi := candidateQuantity e
  if qi.isQuantityPrice then qi.priceText else candidateText3 e

def candidateShipping (e : ElemState) : Bool :=
  isShippingCost e.textContent (elemClassAndId e) e.feats.parentText

def candidateSale (e : ElemState) : SaleResult :=
  detectSalePrice e.feats.strikethrough e.textContent e.feats.parentText
    (elemClassAndId e)

/-- The detected source currency (content.js 3782). -/
def candidateCurrency (cfg : Config) (e : ElemState) : Option String :=
  detectCurrency (candidateText4 e) e.feats.attrCurrency cfg.pageCurrency

/-- The decision chain of the loop body (content.js 3589–3805), computing
which exit is taken and the conversion data. -/
def processDecide (cfg : Config) (e : ElemState) : Outcome :=
  if e.datasetConverted then .skippedDatasetConverted
  else
    let originalText := e.textContent
    if originalText.isEmpty || 150 < originalText.length then
      .skippedEmptyOrLong
    else
      match rangeBranch cfg e with
      | some o => o
      | none =>
        let text0 := normalizePriceText originalText
        if text0.isEmpty then .emptyNormalized
        else
          if !(candidateFrag e).1 && candidateScore e < 60 then
            .skippedLowConfidence
          else
            let qi := candidateQuantity e
            if qi.isQuantityPrice && qi.shouldSkip then .skippedBulkOffer
            else
              if candidateShipping e then .skippedShipping
              else
                let sale := candidateSale e
                if sale.isOldPrice && 50 < sale.confidence then .skippedOldPrice
                else
                  match candidateCurrency cfg e with
                  | none => .noCurrency
                  | some sourceCurrency =>
                    if sourceCurrency = cfg.settings.defaultTargetCurrency then
                      .skippedSameCurrency
                    else
                      let pr := detectPriceRange cfg.matchMain cfg.matchTo
                        cfg.pageCurrency (candidateText4 e)
                      let text5 :=
                        if pr.isRange then
                          jsNumberToString pr.minPrice ++ ' ' ::
                            ((pr.currency.getD sourceCurrency).data)
                        else candidateText4 e
                      let frag := extractFragmentedPrice e.feats.spans
                        e.feats.allText e.feats.parentAllText
                      match extractAmount text5 sourceCurrency (some frag) with
                      | none => .noAmount
                      | some amount =>
                        if amount ≤ 0 || 1000000000 < amount then .noAmount
                        else
                          match calculateConversion cfg.rates amount
                            sourceCurrency cfg.settings.defaultTargetCurrency with
                          | none => .noConversion
                          | some conv =>
                            if conv = 0 then .noConversion
                            else .converted sourceCurrency amount conv

/-- `applyConversion(element, amount, sourceCurrency, convertedAmount,
targetCurrency)` (content.js 2402): record the conversion on the element
and mutate text (replace mode) or `title` (tooltip mode). -/
def applyConversion (e : ElemState) (src : String) (conv : ℚ)
    (tgt : String) (st : Settings) : ElemState :=
  let dsOrig :=
    if (e.datasetOriginalPrice.map (fun s => !s.isEmpty)).getD false then
      e.datasetOriginalPrice.getD []
    else e.textContent
  let convertedText := generateConvertedText dsOrig conv tgt
  if st.replacePrice then
    let normalizedOriginal := trimS (collapseSpaces dsOrig)
    { e with
      datasetConverted := true,
      datasetOriginalPrice := some dsOrig,
      datasetConvertedText := some convertedText,
      textContent := convertedText,
      title := some (("Original: ").data ++ normalizedOriginal ++
        (" (").data ++ src.data ++ ((")").data)) }
  else
    let normalizedText := trimS (collapseSpaces convertedText)
    let alreadyHasCode := isPrefixB tgt.data normalizedText
    { e with
      datasetConverted := true,
      datasetOriginalPrice := some dsOrig,
      datasetConvertedText := some convertedText,
      title :=
        if st.showInlineConversion then
          some (if alreadyHasCode then normalizedText
                else normalizedText ++ ' ' :: tgt.data)
        else e.title }

/-- The mutation associated with each outcome: only the two range exits
and a successful conversion touch the element (the range branch also adds
it to the processed set in place, lines 3645/3652); every other exit is a
bare `continue`. -/
def processApply (cfg : Config) (e : ElemState) : Outcome → ElemState
  | .rangeConverted cr =>
    let normalizedOriginal := trimS (collapseSpaces e.textContent)
    let base :=
      { e with
        datasetConverted := true,
        datasetOriginalPrice := some normalizedOriginal,
        datasetConvertedText := some cr,
        processed := true }
    if cfg.settings.replacePrice then
      { base with
        textContent := cr,
        title := some (("Original: ").data ++ normalizedOriginal) }
    else if cfg.settings.showInlineConversion then
      { base with title := some (trimS (collapseSpaces cr)) }
    else base
  | .rangeSameCurrency => { e with processed := true }
  | .converted src _ conv =>
    applyConversion e src conv cfg.settings.defaultTargetCurrency cfg.settings
  | _ => e

/-- One loop-body step: decide, then mutate. -/
def processElement (cfg : Config) (e : ElemState) : ElemState × Outcome :=
  let o := processDecide cfg e
  (processApply cfg e o, o)

/-- Whether an outcome increments the `skipped` counter. -/
def Outcome.countsSkipped : Outcome → Bool
  | .rangeSameCurrency => true
  | .skippedLowConfidence => true
  | .skippedBulkOffer => true
  | .skippedShipping => true
  | .skippedOldPrice => true
  | .skippedSameCurrency => true
  | _ => false

def Outcome.isConverted : Outcome → Bool
  | .converted _ _ _ => true
  | _ => false

def Outcome.isRangeConverted : Outcome → Bool
  | .rangeConverted _ => true
  | _ => false

/-- Whether an outcome's mutation step touches the element (and marks it
processed in place): the two range exits and a successful conversion. -/
def Outcome.mutatesOrMarks : Outcome → Bool
  | .rangeConverted _ => true
  | .rangeSameCurrency => true
  | .converted _ _ _ => true
  | _ => false

/-- The result of a selector pass: the element states, the `converted`
counter and the `skipped` counter. -/
structure ScanOut where
  elems : List ElemState
  conv : Nat
  skip : Nat

/-- The selector-pass loop (content.js 3589–3816): elements in the
processed set are skipped outright; a successful regular conversion marks
the element processed (line 3811) and stops the pass at the 100th
conversion (line 3815; the range exits `continue` before that check). -/
def scanLoop (cfg : Config) :
    List ElemState → Nat → Nat → ScanOut
  | [], conv, skip => ⟨[], conv, skip⟩
  | e :: rest, conv, skip =>
    if e.processed then
      let r := scanLoop cfg rest conv skip
      ⟨e :: r.elems, r.conv, r.skip⟩
    else
      let o := processDecide cfg e
      let e1 := processApply cfg e o
      match o with
      | .rangeConverted _ =>
        let r := scanLoop cfg rest (conv + 1) skip
        ⟨e1 :: r.elems, r.conv, r.skip⟩
      | .converted _ _ _ =>
        let e2 := { e1 with processed := true }
        if 100 ≤ conv + 1 then ⟨e2 :: rest, conv + 1, skip⟩
        else
          let r := scanLoop cfg rest (conv + 1) skip
          ⟨e2 :: r.elems, r.conv, r.skip⟩
      | o' =>
        let r := scanLoop cfg rest conv
          (if o'.countsSkipped then skip + 1 else skip)
        ⟨e1 :: r.elems, r.conv, r.skip⟩

/-- A full selector pass starting from fresh counters. -/
def scanPass (cfg : Config) (es : List ElemState) : ScanOut :=
  scanLoop cfg es 0 0

/-! ## The semantic-attribute pass, PASS 2 of `convertPrices`
(`detectPricesFromSemanticHTML`, content.js 2478–2557).

This pass converts elements selected by semantic attribute selectors
without ever computing a confidence score. -/

inductive SemOutcome where
  | skippedAlready
  | noText
  | noCurrencyOrSame
  | badAmount
  | noConversion
  | converted (src : String) (amount convertedAmount : ℚ)
  deriving Repr, DecidableEq

/-- JS `a || b` for optional attribute strings. -/
def jsOrAttr (a : Option String) (b : Option String) : Option String :=
  if attrTruthy a then a else b

/-- The loop body of `detectPricesFromSemanticHTML` for one selected
element. -/
def processSemanticElement (cfg : Config) (e : ElemState) :
    ElemState × SemOutcome :=
  if e.processed || e.datasetConverted then (e, .skippedAlready)
  else
    let priceTextOpt :=
      jsOrAttr e.feats.semantic.dataPrice
        (jsOrAttr e.feats.semantic.dataAmount
          (jsOrAttr e.feats.dataCost
            (jsOrAttr e.feats.dataValue
              (jsOrAttr e.feats.dataPriceAmount
                (jsOrAttr e.feats.dataProductPrice
                  (jsOrAttr e.feats.dataSalePrice
                    (jsOrAttr e.feats.dataRegularPrice
                      (jsOrAttr e.feats.contentAttr
                        (jsOrAttr e.feats.semantic.ariaLabel
                          (some (String.mk e.textContent)))))))))))
    match priceTextOpt with
    | none => (e, .noText)
    | some pt0 =>
      if pt0.isEmpty then (e, .noText)
      else
        let priceText := trimS pt0.data
        match detectCurrency priceText e.feats.attrCurrency cfg.pageCurrency with
        | none => (e, .noCurrencyOrSame)
        | some sourceCurrency =>
          if sourceCurrency = cfg.settings.defaultTargetCurrency then
            (e, .noCurrencyOrSame)
          else
            let frag := extractFragmentedPrice e.feats.spans e.feats.allText
              e.feats.parentAllText
            match extractAmount priceText sourceCurrency (some frag) with
            | none => (e, .badAmount)
            | some amount =>
              if amount ≤ 0 || 1000000000 < amount then (e, .badAmount)
              else
                match calculateConversion cfg.rates amount sourceCurrency
                  cfg.settings.defaultTargetCurrency with
                | none => (e, .noConversion)
                | some conv =>
                  if conv = 0 then (e, .noConversion)
                  else
                    let e1 := applyConversion e sourceCurrency conv
                      cfg.settings.defaultTargetCurrency cfg.settings
                    ({ e1 with processed := true },
                     .converted sourceCurrency amount conv)

/-! ## Concrete test fixtures (used by the claim theorems and witnesses) -/

/-- A maximally price-like visual context: visible, large, bold, green,
above the fold, big on-screen area. -/
def visMax : VisualFeatures :=
  { displayNone := false, visibilityHidden := false, opacityZero := false,
    width := 100, height := 60, fontSize := 24, fontWeight := 700,
    colorGreen := true, colorRed := false, rectTop := 10,
    viewportHeight := 800 }

/-- An invisible element (`display: none`). -/
def visHidden : VisualFeatures :=
  { displayNone := true, visibilityHidden := false, opacityZero := false,
    width := 0, height := 0, fontSize := 10, fontWeight := 400,
    colorGreen := false, colorRed := false, rectTop := 0,
    viewportHeight := 800 }

/-- Strong semantic markup: `itemprop="price"`, `data-price`,
`data-amount`. -/
def semMax : SemanticFeatures :=
  { itemprop := some ("price"), itemtype := none, ariaLabel := none,
    role := none, dataPrice := some ("1"), dataAmount := some ("1"),
    dataCurrency := none }

/-- Only a `data-price="$5"` attribute. -/
def semDataPriceOnly : SemanticFeatures :=
  { itemprop := none, itemtype := none, ariaLabel := none, role := none,
    dataPrice := some ("$5"), dataAmount := none, dataCurrency := none }

/-- A featureless element baseline. -/
def defaultFeats : ElemFeatures :=
  { spans := [], allText := [], parentAllText := none,
    prevSibling := none, nextSibling := none,
    visual := visHidden,
    semantic := { itemprop := none, itemtype := none, ariaLabel := none,
                  role := none, dataPrice := none, dataAmount := none,
                  dataCurrency := none },
    className := [], idAttr := [], parentText := [],
    tagName := ("meta").data, parentHasPriceClass := false,
    hasAmazonPriceStructure := false, strikethrough := false,
    attrCurrency := none, dataCost := none, dataValue := none,
    dataPriceAmount := none, dataProductPrice := none,
    dataSalePrice := none, dataRegularPrice := none, contentAttr := none }

def mkElem (f : ElemFeatures) (text : List Char) : ElemState :=
  { feats := f, textContent := text, title := none,
    datasetConverted := false, datasetOriginalPrice := none,
    datasetConvertedText := none, processed := false }

def testSettings : Settings :=
  { defaultTargetCurrency := "ILS", replacePrice := false,
    showInlineConversion := true, useThousandSeparator := false,
    decimalPlacesFixed := 2 }

def testRates : RateTable := [("USD", 1), ("ILS", 37/10)]

/-- A range engine returning no match (well-formed; by
`claim_C5_theorem` the range branch behaves identically under every
well-formed engine). -/
def noMatchEngine : List Char → Option RangeMatch := fun _ => none

def cfgT : Config :=
  { settings := testSettings, rates := testRates,
    pageCurrency := some ("USD"),
    matchMain := noMatchEngine, matchTo := noMatchEngine }

/-- The phone-number element with maximal non-textual signals. -/
def phoneFeats : ElemFeatures :=
  { defaultFeats with
    allText := ("555-123-4567").data,
    visual := visMax, semantic := semMax,
    className := ("price").data,
    parentText := ("buy now").data, tagName := ("span").data,
    parentHasPriceClass := true }

def phoneElem : ElemState := mkElem phoneFeats (("555-123-4567").data)

/-- A hidden element carrying only `data-price="$5"`: converted by the
semantic pass although its confidence score is 49. -/
def lowScoreFeats : ElemFeatures :=
  { defaultFeats with semantic := semDataPriceOnly }

def lowScoreElem : ElemState := mkElem lowScoreFeats []

/-- The same low-signal element as a selector-pass candidate with visible
text `$5`. -/
def gateElem : ElemState := mkElem lowScoreFeats (("$5").data)

/-- A strongly marked element whose text is already in the target
currency (`₪50`, target ILS). -/
def strongFeats : ElemFeatures :=
  { defaultFeats with
    visual := visMax, semantic := semMax,
    className := ("price").data, tagName := ("span").data,
    parentHasPriceClass := true }

def ilsElem : ElemState :=
  mkElem { strongFeats with allText := ("₪50").data } (("₪50").data)

/-- A convertible `$5` element (USD → ILS). -/
def dollarElem : ElemState :=
  mkElem { strongFeats with allText := ("$5").data } (("$5").data)

/-- The conceptual fragments of the fragmented-price scenario. -/
def c3spans : List SpanInfo :=
  [{ text := ("US $").data, style := [] },
   { text := ("134").data, style := [] },
   { text := (".").data, style := [] },
   { text := ("98").data, style := [] }]

/-- The rate table of the C1 counterexample: both currencies present,
the target rate zero. -/
def zeroTargetRates : RateTable := [("USD", 1), ("ABC", 0)]

/-- The actual JS match of `PRICE_RANGE_REGEX` on `"$10-$20"` (symbol
alternative: groups 1–4 participate, 5–8 do not). -/
def rangeMatch10to20 : RangeMatch :=
  { full := ("$10-$20").data,
    g1 := some (("$").data), g2 := some (("10").data),
    g3 := some (("$").data), g4 := some (("20").data),
    g5 := none, g6 := none, g7 := none, g8 := none }

/-- An element the selector pass can no longer touch: it is in the
processed set, or its decide-phase outcome is non-mutating. -/
def inertB (cfg : Config) (e : ElemState) : Bool :=
  e.processed || !(processDecide cfg e).mutatesOrMarks

/-- The `$5` element after a successful conversion of the selector pass
(mutated by `applyConversion`, then added to the processed set). -/
def dollarDone : ElemState :=
  { processApply cfgT dollarElem (Outcome.converted ("USD") 5 (37/2)) with
    processed := true }

/-! # Claim theorems -/

attribute [local semireducible] Rat.add Rat.mul Rat.inv Rat.sub Rat.ofScientific

@[simp] theorem jsTruthy_none : jsTruthy none = false := rfl

@[simp] theorem jsTruthy_some_cons (a : Char) (t : List Char) :
    jsTruthy (some (a :: t)) = true := rfl

/-- **C1** (counterexample).  The claim says `calculateConversion` returns
`(a / rate[from]) * rate[to]` whenever both rates are present and the
result is finite.  With the table `{USD: 1, ABC: 0}` both rates are
present and `(5 / 1) * 0 = 0` is finite, yet the function returns `null`:
the JS guard `!exchangeRates[c]` also rejects a present rate of `0`. -/
theorem claim_C1_counterexample :
    lookupRate zeroTargetRates ("USD") = some 1 ∧
    lookupRate zeroTargetRates ("ABC") = some 0 ∧
    (5 : ℚ) / 1 * 0 = 0 ∧
    calculateConversion zeroTargetRates 5 ("USD") ("ABC") ≠
      some ((5 : ℚ) / 1 * 0) := by
  refine ⟨by rfl, by rfl, by norm_num, ?_⟩
  have hnone : calculateConversion zeroTargetRates 5 ("USD") ("ABC") = none := by
    rfl
  rw [hnone]
  simp

/-- **C1** (amended).  `calculateConversion(a, from, to)` returns
`(a / rate[from]) * rate[to]` whenever both `rate[from]` and `rate[to]`
are present **and nonzero** (the result of exact rational arithmetic with
a nonzero divisor is finite), and returns `null` whenever either currency
is absent from the rate table **or its rate is zero** (the JS falsiness
guard, which also covers the division-by-zero source of a non-finite
result). -/
theorem claim_C1 (rates : RateTable) (a : ℚ) (src tgt : String) :
    (∀ rs rt, lookupRate rates src = some rs → lookupRate rates tgt = some rt →
      rs ≠ 0 → rt ≠ 0 →
      calculateConversion rates a src tgt = some (a / rs * rt)) ∧
    ((lookupRate rates src = none ∨ lookupRate rates src = some 0 ∨
      lookupRate rates tgt = none ∨ lookupRate rates tgt = some 0) →
      calculateConversion rates a src tgt = none) := by
  constructor
  · intro rs rt hs ht hrs hrt
    simp [calculateConversion, hs, ht, hrs, hrt]
  · intro h
    rcases h with h | h | h | h <;>
      cases h2 : lookupRate rates tgt <;>
      cases h1 : lookupRate rates src <;>
      simp_all [calculateConversion]

/-- **C1** (witness): at the table `{USD: 1, ILS: 3.7}` the amended
theorem computes `5 USD → 18.5 ILS`. -/
theorem claim_C1_witness :
    calculateConversion testRates 5 ("USD") ("ILS") =
      some ((5 : ℚ) / 1 * (37/10)) :=
  (claim_C1 testRates 5 ("USD") ("ILS")).1
    1 (37/10) (by rfl) (by rfl) (by norm_num) (by norm_num)

/-- **C3** (counterexample).  On the conceptual fragments
`["US $", "134", ".", "98"]` the assembler returns `"US $ 134.98"` — the
reassembly loop deliberately inserts a space after a currency fragment
(content.js 1838–1841) and the cleanup only strips spaces adjacent to
`.`/`,` — which is not the claimed `"US $134.98"`. -/
theorem claim_C3_counterexample :
    extractFragmentedPrice c3spans [] none = ("US $ 134.98").data ∧
    ("US $ 134.98").data ≠ ("US $134.98").data := by decide

/-- **C3** (amended).  Given child spans holding the conceptual fragments
`["US $", "134", ".", "98"]`, `extractFragmentedPrice` returns exactly
`"US $ 134.98"`: a single space is inserted at the currency/number
boundary (after the `"US $"` fragment), no space between consecutive
digit fragments, and no stray space around the decimal point. -/
theorem claim_C3 :
    extractFragmentedPrice c3spans [] none = ("US $ 134.98").data := by decide

set_option maxHeartbeats 1600000 in
/-- **C4** (confirmed).  Decimal-separator disambiguation: with both
separators present, the one appearing last is the decimal marker when it
has exactly two trailing digits; with one separator, one or two trailing
digits make it the decimal marker, and otherwise (thousands grouping) the
European-comma-decimal set of the currency breaks the tie.  The three
specified extractions evaluate to 1234.56, 1234.56 and 12.99. -/
theorem claim_C4 :
    (∀ (t : List Char) (c : String) (lc ld : Nat),
      lastIdx ',' t = some lc → lastIdx '.' t = some ld → ld < lc →
      digitsAfter t lc = 2 → detectDecimalSeparator t c = Sep.comma) ∧
    (∀ (t : List Char) (c : String) (lc ld : Nat),
      lastIdx ',' t = some lc → lastIdx '.' t = some ld → lc < ld →
      digitsAfter t ld = 2 → detectDecimalSeparator t c = Sep.dot) ∧
    (∀ (t : List Char) (c : String) (lc : Nat),
      lastIdx ',' t = some lc → lastIdx '.' t = none →
      (digitsAfter t lc = 1 ∨ digitsAfter t lc = 2) →
      detectDecimalSeparator t c = Sep.comma) ∧
    (∀ (t : List Char) (c : String) (ld : Nat),
      lastIdx '.' t = some ld → lastIdx ',' t = none →
      (digitsAfter t ld = 1 ∨ digitsAfter t ld = 2) →
      detectDecimalSeparator t c = Sep.dot) ∧
    (∀ (t : List Char) (c : String) (lc : Nat),
      lastIdx ',' t = some lc → lastIdx '.' t = none →
      digitsAfter t lc ≠ 1 → digitsAfter t lc ≠ 2 →
      detectDecimalSeparator t c =
        (if europeanCurrencies.contains c then Sep.comma else Sep.dot)) ∧
    (∀ (t : List Char) (c : String) (ld : Nat),
      lastIdx '.' t = some ld → lastIdx ',' t = none →
      digitsAfter t ld ≠ 1 → digitsAfter t ld ≠ 2 →
      detectDecimalSeparator t c =
        (if europeanCurrencies.contains c then Sep.comma else Sep.dot)) ∧
    extractAmount (("1.234,56").data) ("EUR") none = some (123456/100) ∧
    extractAmount (("1,234.56").data) ("USD") none = some (123456/100) ∧
    extractAmount (("12,99").data) ("USD") none = some (1299/100) := by
  refine ⟨?_, ?_, ?_, ?_, ?_, ?_, by decide, by decide, by decide⟩
  · intro t c lc ld h1 h2 h3 h4
    simp [detectDecimalSeparator, h1, h2, h3, h4]
  · intro t c lc ld h1 h2 h3 h4
    have : ¬ (ld < lc) := by omega
    simp [detectDecimalSeparator, h1, h2, h3, h4, this]
  · intro t c lc h1 h2 h3
    rcases h3 with h3 | h3 <;> simp [detectDecimalSeparator, h1, h2, h3]
  · intro t c ld h1 h2 h3
    rcases h3 with h3 | h3 <;> simp [detectDecimalSeparator, h1, h2, h3]
  · intro t c lc h1 h2 h3 h4
    simp [detectDecimalSeparator, h1, h2, h3, h4]
  · intro t c ld h1 h2 h3 h4
    simp [detectDecimalSeparator, h1, h2, h3, h4]

/-- **C4** (witness): the general clauses applied to `"1.234,56"` (both
separators, comma last with two trailing digits), `"12,99"` (single comma,
two trailing digits) and `"1,234"` (single comma, three trailing digits,
currency tie-break). -/
theorem claim_C4_witness :
    detectDecimalSeparator (("1.234,56").data) ("EUR") = Sep.comma ∧
    detectDecimalSeparator (("12,99").data) ("USD") = Sep.comma ∧
    detectDecimalSeparator (("1,234").data) ("USD") =
      (if europeanCurrencies.contains ("USD") then Sep.comma else Sep.dot) :=
  ⟨claim_C4.1 _ ("EUR") 5 1 (by rfl) (by rfl) (by omega) (by rfl),
   claim_C4.2.2.1 _ ("USD") 2 (by rfl) (by rfl) (Or.inr (by rfl)),
   claim_C4.2.2.2.2.1 _ ("USD") 1 (by rfl) (by rfl) (by decide) (by decide)⟩

/-- **C9** (counterexample).  `"USD C$50"` contains `"C$5"` — `C$`
immediately before a number — but the word-bounded ISO-code scan of
Method 2 fires first and the text resolves to USD, not CAD. -/
theorem claim_C9_counterexample :
    containsS (("USD C$50").data) (("C$5").data) = true ∧
    detectCurrency (("USD C$50").data) none none = some ("USD") ∧
    (("USD") : String) ≠ ("CAD") := by decide

/-- **C9** (amended).  In the symbol-checking phase — when the normalised
text matches no word-bounded ISO code, contains no currency name, and
contains none of the earlier multi-character prefixes `US $`, `US$`,
`AU $`, `AU$` — a text containing `C$` resolves to CAD: the
multi-character `C$` check precedes the bare `$` check.  In particular
`"C$50"` resolves to CAD and not USD. -/
theorem claim_C9 (text : List Char) (pc : Option String)
    (h1 : findIsoCodeWordB (trimS (collapseSpaces text)) = none)
    (h2 : findCurrencyName (lowerS (trimS (collapseSpaces text))) = none)
    (h3 : containsS (trimS (collapseSpaces text)) (("US $").data) = false)
    (h4 : containsS (trimS (collapseSpaces text)) (("US$").data) = false)
    (h5 : containsS (trimS (collapseSpaces text)) (("AU $").data) = false)
    (h6 : containsS (trimS (collapseSpaces text)) (("AU$").data) = false)
    (h7 : containsS (trimS (collapseSpaces text)) (("C$").data) = true) :
    detectCurrency text none pc = some ("CAD") := by
  simp [detectCurrency, h1, h2, detectCurrencySymbols, h3, h4, h5, h6, h7]

/-- **C9** (witness): `"C$50"` resolves to CAD. -/
theorem claim_C9_witness :
    detectCurrency (("C$50").data) none none = some ("CAD") :=
  claim_C9 (("C$50").data) none (by rfl) (by rfl) (by decide) (by decide)
    (by decide) (by decide) (by decide)

/-- The symbol substrings checked before the bare `$` case of
`detectCurrencySymbols`, in chain order (content.js 1156–1196). -/
def earlierThanDollarTokens : List (List Char) :=
  [("US $").data, ("US$").data, ("AU $").data, ("AU$").data, ("C$").data,
   ("CAD$").data, ("A$").data, ("NZ$").data, ("NZ $").data, ("HK$").data,
   ("HK $").data, ("S$").data, ("SG$").data, ("R$").data, ("NT$").data,
   ("TW$").data, ("MX$").data, ("د.إ").data, ("AED").data, ("د.ك").data,
   ("KWD").data, ("₣").data, ("CHF").data, ("€").data, ("£").data,
   ("₹").data, ("₪").data, ("₽").data, ("₩").data, ("฿").data,
   ("₺").data, ("zł").data, ("Kč").data, ("Ft").data, ("lei").data,
   ("﷼").data, ("₱").data, ("₫").data, ("₴").data, ("¥").data,
   ("kr").data]

/-- None of the symbol checks preceding the bare-`$` case fire. -/
def noEarlierSymbolSignal (t : List Char) : Bool :=
  earlierThanDollarTokens.all (fun tok => !containsS t tok)

/-- **C10** (confirmed).  When a text's only currency signal is a bare
`$` — no word-bounded ISO code, no currency name, none of the symbol
substrings checked earlier in the chain — `detectCurrency` returns the
page currency exactly when it is one of the dollar-family codes
USD, CAD, AUD, NZD, HKD, SGD, TWD, MXN, and USD otherwise. -/
theorem claim_C10 (text : List Char) (pc : String)
    (h1 : findIsoCodeWordB (trimS (collapseSpaces text)) = none)
    (h2 : findCurrencyName (lowerS (trimS (collapseSpaces text))) = none)
    (h3 : noEarlierSymbolSignal (trimS (collapseSpaces text)) = true)
    (h4 : containsS (trimS (collapseSpaces text)) (("$").data) = true) :
    detectCurrency text none (some pc) =
      some (if dollarFamily.contains pc then pc else ("USD")) := by
  simp only [noEarlierSymbolSignal, earlierThanDollarTokens, List.all_cons,
    List.all_nil, Bool.and_eq_true, Bool.not_eq_true'] at h3
  obtain ⟨e1, e2, e3, e4, e5, e6, e7, e8, e9, e10, e11, e12, e13, e14, e15,
    e16, e17, e18, e19, e20, e21, e22, e23, e24, e25, e26, e27, e28, e29,
    e30, e31, e32, e33, e34, e35, e36, e37, e38, e39, e40, e41, -⟩ := h3
  simp only [detectCurrency, h1, h2, detectCurrencySymbols, e1, e2, e3, e4,
    e5, e6, e7, e8, e9, e10, e11, e12, e13, e14, e15, e16, e17, e18, e19,
    e20, e21, e22, e23, e24, e25, e26, e27, e28, e29, e30, e31, e32, e33,
    e34, e35, e36, e37, e38, e39, e40, e41, h4, Bool.or_self, Bool.or_false,
    Bool.false_or, if_false, if_true]
  cases hdf : dollarFamily.contains pc <;> simp [hdf]

/-- **C10** (witness): a bare `"$50"` resolves to USD on a EUR page and
to CAD on a CAD page. -/
theorem claim_C10_witness :
    detectCurrency (("$50").data) none (some ("EUR")) =
      some (if dollarFamily.contains ("EUR") then ("EUR") else ("USD")) ∧
    detectCurrency (("$50").data) none (some ("CAD")) =
      some (if dollarFamily.contains ("CAD") then ("CAD") else ("USD")) :=
  ⟨claim_C10 (("$50").data) ("EUR") (by rfl) (by rfl) (by decide) (by decide),
   claim_C10 (("$50").data) ("CAD") (by rfl) (by rfl) (by decide) (by decide)⟩

/-- The group-shape argument: under the 8-group shape invariant, every
branch of the 10-group parsing logic of `detectPriceRange` ends in
`isRange: false`. -/
theorem parseRange_never_range (mMain mTo : Option RangeMatch)
    (pc : Option String)
    (h1 : ∀ m, mMain = some m → m.WF) (h2 : ∀ m, mTo = some m → m.WF) :
    (parseRangeMatch mMain mTo pc).isRange = false := by
  have aux : ∀ (m : RangeMatch), m.WF →
      (parseRangeMatch (some m) mTo pc).isRange = false ∧
      (parseRangeMatch none (some m) pc).isRange = false := by
    intro m hm
    rcases hm with ⟨hg1, ⟨s2, hg2, hs2⟩, ⟨s4, hg4, hs4⟩, hg5, hg6, hg7, hg8⟩ |
      ⟨hg1, hg2, hg3, hg4, ⟨s6, hg6, hs6⟩, ⟨s7, hg7, hs7⟩⟩
    · cases s2 with
      | nil => exact absurd rfl hs2
      | cons a t =>
        constructor <;>
          simp [parseRangeMatch, RangeMatch.grp, hg2, hg6, noRange]
    · cases hjt : jsTruthy m.g8 <;> constructor <;>
        simp [parseRangeMatch, RangeMatch.grp, hg2, hg3, hjt, noRange]
  cases mMain with
  | some m => exact (aux m (h1 m rfl)).1
  | none =>
    cases mTo with
    | some m => exact (aux m (h2 m rfl)).2
    | none => rfl

/-- `detectPriceRange` returns `isRange: false` on every input, for every
well-formed pair of range-regex engines. -/
theorem detectPriceRange_never_range (matchMain matchTo : List Char → Option RangeMatch)
    (hm : RangeEngineWF matchMain) (ht : RangeEngineWF matchTo)
    (pc : Option String) (text : List Char) :
    (detectPriceRange matchMain matchTo pc text).isRange = false := by
  unfold detectPriceRange
  split
  · rfl
  · exact parseRange_never_range _ _ _ (fun m h => hm _ _ h) (fun m h => ht _ _ h)

/-- The dedicated range branch of the selector loop is dead code under
well-formed range engines. -/
theorem rangeBranch_none (cfg : Config) (e : ElemState)
    (hm : RangeEngineWF cfg.matchMain) (ht : RangeEngineWF cfg.matchTo) :
    rangeBranch cfg e = none := by
  simp only [rangeBranch,
    detectPriceRange_never_range cfg.matchMain cfg.matchTo hm ht,
    Bool.false_eq_true, if_false]

/-- **C5** (code bug).  `detectPriceRange` parses its match against a
10-group layout, but the deployed `PRICE_RANGE_REGEX` /
`PRICE_RANGE_TO_REGEX` have only 8 groups, so for **every** possible
match shape the parsed `minPrice`/`maxPrice` pair fails the validity
check and the function returns `isRange: false`: the dedicated range path
(minimum carried forward, range preserved) is dead code.  The scenario
input `"$10-$20"` is instead handled by the plain-price path, whose
leftmost-match extraction happens to pick the minimum 10, converted at
`{USD: 1, ILS: 3.7}` to 37. -/
theorem claim_C5_theorem :
    (∀ (mMain mTo : Option RangeMatch) (pc : Option String),
      (∀ m, mMain = some m → m.WF) → (∀ m, mTo = some m → m.WF) →
      (parseRangeMatch mMain mTo pc).isRange = false) ∧
    extractAmount (("$10-$20").data) ("USD") none = some 10 ∧
    calculateConversion testRates 10 ("USD") ("ILS") = some 37 :=
  ⟨parseRange_never_range, by decide, by decide⟩

/-- **C5** (witness): the actual 8-group match of `PRICE_RANGE_REGEX` on
`"$10-$20"` (groups `$`, `10`, `$`, `20`) is well-formed and still parses
to `isRange: false`; the plain path extracts the minimum 10 → 37 ILS. -/
theorem claim_C5_witness :
    (parseRangeMatch (some rangeMatch10to20) none none).isRange = false ∧
    extractAmount (("$10-$20").data) ("USD") none = some 10 ∧
    calculateConversion testRates 10 ("USD") ("ILS") = some 37 :=
  ⟨claim_C5_theorem.1 (some rangeMatch10to20) none none
      (fun m hm => by
        cases hm
        exact Or.inl ⟨by decide, ⟨("10").data, rfl, by decide⟩,
          ⟨("20").data, rfl, by decide⟩, rfl, rfl, rfl, rfl⟩)
      (fun m hm => by cases hm),
   claim_C5_theorem.2.1, claim_C5_theorem.2.2⟩

theorem clampI_le (lo hi x : ℤ) : clampI lo hi x ≤ hi := min_le_left _ _

theorem analyzeVisual_le_100 (v : VisualFeatures) :
    analyzeVisualContext v ≤ 100 := by
  unfold analyzeVisualContext
  rcases Bool.eq_false_or_eq_true (!(!v.displayNone && !v.visibilityHidden &&
      !v.opacityZero && decide (0 < v.width) && decide (0 < v.height)))
    with h | h <;> simp only [h] <;>
    first
      | exact clampI_le _ _ _
      | norm_num

theorem analyzeSemantic_le_100 (sf : SemanticFeatures) (tC : List Char) :
    analyzeSemanticHTML sf tC ≤ 100 := by
  unfold analyzeSemanticHTML
  exact min_le_left _ _

theorem jsRound_le_75 (q : ℚ) (h : q ≤ 75) : jsRound q ≤ 75 := by
  unfold jsRound
  have h2 : q + 1/2 ≤ 75 + 1/2 := by linarith
  have h4 : ⌊(75 : ℚ) + 1/2⌋ = 75 := by
    rw [Int.floor_eq_iff]
    norm_num
  calc ⌊q + 1/2⌋ ≤ ⌊(75 : ℚ) + 1/2⌋ := Int.floor_le_floor h2
    _ = 75 := h4

set_option maxHeartbeats 1000000 in
/-- **C6** (counterexample).  The phone-number text `"555-123-4567"` is
hard-rejected by the textual validator (confidence 0), yet on an element
with maximal visual, semantic, contextual and structural signals its
total score is 75 ≥ 60, the gate passes, and the selector pass converts
it (pageCurrency USD, amount 555, 555 × 3.7 = 2053.5 ILS). -/
theorem claim_C6_counterexample :
    (isProbablyPrice (("555-123-4567").data) (elemClassAndId phoneElem)
        phoneFeats.parentText).isPrice = false ∧
    (isProbablyPrice (("555-123-4567").data) (elemClassAndId phoneElem)
        phoneFeats.parentText).confidence = 0 ∧
    candidateScore phoneElem = 75 ∧
    processDecide cfgT phoneElem =
      Outcome.converted ("USD") 555 (4107/2) ∧
    (scanPass cfgT [phoneElem]).conv = 1 := by decide

/-- **C6** (amended).  The negative-signal texts — the phone number
`"555-123-4567"` (caught by the product-code pattern), the percentage
`"50%"`, the product code `"ABC-1234-XYZ"` and the dimension
`"10 x 20"` — are hard-rejected by the textual validator: their
validation confidence is 0 for every element class/id and parent text, so
text alone can never make them prices.  This however only zeroes the 25%
validation component: the total score of such a candidate is capped at
75, which is above the 60 threshold, so sufficiently strong visual,
semantic, contextual and structural signals can still push a
hard-rejected text past the gate (see the counterexample).  A bare year
such as `"2024"` is not hard-rejected at all, only penalised
(confidence 30). -/
theorem claim_C6 :
    (∀ (classAndId parentText : List Char),
      (isProbablyPrice (("555-123-4567").data) classAndId parentText).confidence = 0 ∧
      (isProbablyPrice (("50%").data) classAndId parentText).confidence = 0 ∧
      (isProbablyPrice (("ABC-1234-XYZ").data) classAndId parentText).confidence = 0 ∧
      (isProbablyPrice (("10 x 20").data) classAndId parentText).confidence = 0) ∧
    (isProbablyPrice (("2024").data) [] []).confidence = 30 ∧
    (∀ (v : VisualFeatures) (sf : SemanticFeatures)
       (classAndId parentText tagName textContent text : List Char)
       (phc : Bool),
      (isProbablyPrice text classAndId parentText).confidence = 0 →
      scorePriceElement v sf classAndId parentText tagName textContent phc
        text ≤ 75) := by
  refine ⟨fun cId pT => ⟨rfl, rfl, rfl, rfl⟩, by decide, ?_⟩
  intro v sf cId pT tag tC text phc h
  unfold scorePriceElement
  simp only [h]
  have hv : ((analyzeVisualContext v : ℤ) : ℚ) ≤ 100 := by
    exact_mod_cast analyzeVisual_le_100 v
  have hsem : ((analyzeSemanticHTML sf tC : ℤ) : ℚ) ≤ 100 := by
    exact_mod_cast analyzeSemantic_le_100 sf tC
  split_ifs <;> (apply jsRound_le_75; push_cast; linarith)

/-- **C6** (witness): the cap applied at the phone-number element. -/
theorem claim_C6_witness :
    scorePriceElement visMax semMax (elemClassAndId phoneElem)
      phoneFeats.parentText phoneFeats.tagName phoneElem.textContent
      true (("555-123-4567").data) ≤ 75 :=
  claim_C6.2.2 visMax semMax (elemClassAndId phoneElem)
    phoneFeats.parentText phoneFeats.tagName phoneElem.textContent
    (("555-123-4567").data) true (by decide)

/-- **C7** (confirmed).  A candidate that reaches the source-currency
check with a detected currency equal to the target is skipped entirely:
the iteration exits with the counted-as-skipped outcome
`skippedSameCurrency` and the element state is completely unchanged (no
conversion, no DOM mutation, and — unlike the range path — no
processed-set insertion).  Moreover converting with `from = to` would
trivially preserve the amount: for any present nonzero rate,
`calculateConversion a c c = a`. -/
theorem claim_C7 (cfg : Config) (e : ElemState)
    (hm : RangeEngineWF cfg.matchMain) (ht : RangeEngineWF cfg.matchTo)
    (h1 : e.datasetConverted = false)
    (h2 : (e.textContent.isEmpty || decide (150 < e.textContent.length)) = false)
    (h3 : (normalizePriceText e.textContent).isEmpty = false)
    (h4 : (!(candidateFrag e).1 && decide (candidateScore e < 60)) = false)
    (h5 : ((candidateQuantity e).isQuantityPrice &&
           (candidateQuantity e).shouldSkip) = false)
    (h6 : candidateShipping e = false)
    (h7 : ((candidateSale e).isOldPrice &&
           decide (50 < (candidateSale e).confidence)) = false)
    (h8 : candidateCurrency cfg e = some cfg.settings.defaultTargetCurrency) :
    processElement cfg e = (e, Outcome.skippedSameCurrency) ∧
    Outcome.countsSkipped Outcome.skippedSameCurrency = true ∧
    (∀ (rates : RateTable) (a r : ℚ) (c : String),
      lookupRate rates c = some r → r ≠ 0 →
      calculateConversion rates a c c = some a) := by
  have hd : processDecide cfg e = Outcome.skippedSameCurrency := by
    simp [processDecide, h1, h2, h3, h4, h5, h6, h7, h8,
      rangeBranch_none cfg e hm ht]
  refine ⟨?_, rfl, ?_⟩
  · unfold processElement
    rw [hd]
    rfl
  · intro rates a r c hr hr0
    simp only [calculateConversion, hr]
    rw [if_neg (by simp [hr0])]
    rw [div_mul_cancel₀ a hr0]

/-- **C7** (witness): the `₪50` element with target currency ILS is
skipped unchanged, and `50 ILS → ILS` is rate-preserving. -/
theorem claim_C7_witness :
    processElement cfgT ilsElem = (ilsElem, Outcome.skippedSameCurrency) ∧
    calculateConversion testRates 50 ("ILS") ("ILS") = some 50 := by
  have h := claim_C7 cfgT ilsElem (fun _ m hm => nomatch hm)
    (fun _ m hm => nomatch hm) (by rfl) (by decide) (by decide) (by decide)
    (by decide) (by decide) (by decide) (by decide)
  exact ⟨h.1, h.2.2 testRates 50 (37/10) ("ILS") (by rfl) (by norm_num)⟩

/-- **C2** (counterexample).  The semantic-attribute pass (PASS 2 of
`convertPrices`) converts a hidden element whose only signal is
`data-price="$5"` without consulting any confidence score; the same
candidate's `scorePriceElement` total is 49 < 60 and it is not a
fragmented price, so under the claim ("in every scan pass … discarded")
it should never have been converted. -/
theorem claim_C2_counterexample :
    (processSemanticElement cfgT lowScoreElem).2 =
      SemOutcome.converted ("USD") 5 (37/2) ∧
    scorePriceElement visHidden semDataPriceOnly (elemClassAndId lowScoreElem)
      [] (("meta").data) [] false (("$5").data) = 49 ∧
    ((49 : ℤ) < 60) ∧
    lowScoreElem.feats.spans = [] := by decide

/-- **C2** (amended).  In the **selector-based** scan pass, a candidate
whose total confidence score is below 60 is discarded unless it was
detected as a fragmented price: non-fragmented low-scoring candidates
exit with `skippedLowConfidence`, and fragmented candidates can never
take that exit, whatever their score.  The other detection passes (such
as the semantic-attribute pass, see the counterexample) convert without
consulting the score. -/
theorem claim_C2 (cfg : Config) (e : ElemState)
    (hm : RangeEngineWF cfg.matchMain) (ht : RangeEngineWF cfg.matchTo)
    (h1 : e.datasetConverted = false)
    (h2 : (e.textContent.isEmpty || decide (150 < e.textContent.length)) = false)
    (h3 : (normalizePriceText e.textContent).isEmpty = false) :
    ((candidateFrag e).1 = false → candidateScore e < 60 →
      processDecide cfg e = Outcome.skippedLowConfidence) ∧
    ((candidateFrag e).1 = true →
      processDecide cfg e ≠ Outcome.skippedLowConfidence) := by
  constructor
  · intro hf hs
    simp [processDecide, h1, h2, h3, hf, hs, rangeBranch_none cfg e hm ht]
  · intro hf
    simp only [processDecide, h1, h2, h3, hf, rangeBranch_none cfg e hm ht,
      Bool.not_true, Bool.false_and, Bool.false_eq_true, if_false]
    (repeat' split) <;> simp

/-- **C2** (witness): the visible low-signal `$5` element (score 49, not
fragmented) is discarded at the gate of the selector pass. -/
theorem claim_C2_witness :
    processDecide cfgT gateElem = Outcome.skippedLowConfidence :=
  (claim_C2 cfgT gateElem (fun _ m hm => nomatch hm) (fun _ m hm => nomatch hm)
      (by rfl) (by decide) (by decide)).1 (by decide) (by decide)

/-! ## Helper lemmas for idempotence of the selector pass (C8) -/

theorem processApply_rangeConverted_processed (cfg : Config) (e : ElemState)
    (cr : List Char) :
    (processApply cfg e (Outcome.rangeConverted cr)).processed = true := by
  simp only [processApply]
  split_ifs <;> rfl

/-- If every element of the input is inert — already in the processed set
or decided without mutation — a selector pass returns the list unchanged
and performs zero conversions. -/
theorem scanLoop_inert (cfg : Config) (es : List ElemState) :
    (∀ e ∈ es, inertB cfg e = true) →
    ∀ (conv skip : Nat),
      (scanLoop cfg es conv skip).elems = es ∧
      (scanLoop cfg es conv skip).conv = conv := by
  induction es with
  | nil => intro _ conv skip; exact ⟨rfl, rfl⟩
  | cons e rest ih =>
    intro hin conv skip
    have he : inertB cfg e = true := hin e (List.mem_cons_self e rest)
    have hrest := ih (fun x hx => hin x (List.mem_cons_of_mem e hx))
    by_cases hp : e.processed = true
    · constructor
      · simp [scanLoop, hp, (hrest conv skip).1]
      · simp [scanLoop, hp, (hrest conv skip).2]
    · have hp' : e.processed = false := by simpa using hp
      have hmm : (processDecide cfg e).mutatesOrMarks = false := by
        simpa [inertB, hp'] using he
      cases ho : processDecide cfg e
      all_goals first
        | (rw [ho] at hmm
           simp [Outcome.mutatesOrMarks] at hmm
           done)
        | (constructor <;>
            simp [scanLoop, hp', ho, processApply, Outcome.countsSkipped,
              (hrest conv skip).1, (hrest conv (skip + 1)).1,
              (hrest conv skip).2, (hrest conv (skip + 1)).2])

/-- If a selector pass ends with fewer than 100 conversions (so the cap
at content.js 3815 never fired), every element it outputs is inert. -/
theorem scanLoop_post (cfg : Config) (es : List ElemState) :
    ∀ (conv skip : Nat), (scanLoop cfg es conv skip).conv < 100 →
      ∀ x ∈ (scanLoop cfg es conv skip).elems, inertB cfg x = true := by
  induction es with
  | nil =>
    intro conv skip _ x hx
    simp [scanLoop] at hx
  | cons e rest ih =>
    intro conv skip h x hx
    by_cases hp : e.processed = true
    · simp only [scanLoop, hp, if_true] at h hx
      rcases List.mem_cons.mp hx with rfl | hx'
      · simp [inertB, hp]
      · exact ih conv skip h x hx'
    · have hp' : e.processed = false := by simpa using hp
      cases ho : processDecide cfg e
      all_goals first
        | (simp only [scanLoop, hp', Bool.false_eq_true, if_false, ho] at h hx
           rcases List.mem_cons.mp hx with rfl | hx'
           · simp [inertB, processApply_rangeConverted_processed]
           · exact ih (conv + 1) skip h x hx')
        | (by_cases hbr : 100 ≤ conv + 1
           · simp only [scanLoop, hp', Bool.false_eq_true, if_false, ho,
               hbr, if_true] at h
             exact absurd (show conv + 1 < 100 from h) (by omega)
           · simp only [scanLoop, hp', Bool.false_eq_true, if_false, ho,
               hbr, if_false] at h hx
             rcases List.mem_cons.mp hx with rfl | hx'
             · simp [inertB]
             · exact ih (conv + 1) skip h x hx')
        | (simp only [scanLoop, hp', Bool.false_eq_true, if_false, ho,
             processApply, Outcome.countsSkipped, if_true, if_false] at h hx
           rcases List.mem_cons.mp hx with rfl | hx'
           · simp [inertB, hp', ho, Outcome.mutatesOrMarks]
           · exact ih conv _ h x hx')

set_option maxHeartbeats 1000000 in
/-- The decide phase converts the `$5` element: currency USD, amount 5,
converted amount 18.5 ILS. -/
theorem processDecide_dollar :
    processDecide cfgT dollarElem = Outcome.converted ("USD") 5 (37/2) := by
  decide

/-- Unrolling a block of identical converting elements below the
100-conversion cap: each is converted and marked processed. -/
theorem scanLoop_repl_conv (cfg : Config) (d : ElemState) (src : String)
    (a c : ℚ) (hdp : d.processed = false)
    (hd : processDecide cfg d = Outcome.converted src a c) :
    ∀ (n : Nat) (tail : List ElemState) (conv skip : Nat),
    conv + n < 100 →
    scanLoop cfg (List.replicate n d ++ tail) conv skip =
      ⟨List.replicate n
          { processApply cfg d (Outcome.converted src a c) with
            processed := true } ++
          (scanLoop cfg tail (conv + n) skip).elems,
       (scanLoop cfg tail (conv + n) skip).conv,
       (scanLoop cfg tail (conv + n) skip).skip⟩ := by
  intro n
  induction n with
  | zero => intro tail conv skip _; rfl
  | succ n ih =>
    intro tail conv skip h
    have h1 : ¬ (100 ≤ conv + 1) := by omega
    have h2 : conv + 1 + n < 100 := by omega
    have h3 : conv + 1 + n = conv + (n + 1) := by omega
    simp only [List.replicate_succ, List.cons_append, List.append_eq,
      scanLoop, hdp, Bool.false_eq_true, if_false, hd]
    rw [if_neg h1, ih tail (conv + 1) skip h2, h3]
    try rfl

/-- Elements already in the processed set are passed over unchanged and
without touching the counters. -/
theorem scanLoop_processed_block (cfg : Config) (p : ElemState)
    (hp : p.processed = true) :
    ∀ (n : Nat) (tail : List ElemState) (conv skip : Nat),
    scanLoop cfg (List.replicate n p ++ tail) conv skip =
      ⟨List.replicate n p ++ (scanLoop cfg tail conv skip).elems,
       (scanLoop cfg tail conv skip).conv,
       (scanLoop cfg tail conv skip).skip⟩ := by
  intro n
  induction n with
  | zero => intro tail conv skip; rfl
  | succ n ih =>
    intro tail conv skip
    simp only [List.replicate_succ, List.cons_append, List.append_eq,
      scanLoop, hp, if_true]
    rw [ih tail conv skip]

/-- **C8** (counterexample).  With 101 identical convertible `$5`
elements, the first run of the selector pass stops at the 100-conversion
cap (content.js 3815) leaving the 101st candidate untouched, and a
second run over the resulting page performs one further conversion — so
a repeated invocation is not a no-op, against the claim that the
processed-set/dataset marking makes repeated runs idempotent. -/
theorem claim_C8_counterexample :
    (scanPass cfgT (List.replicate 101 dollarElem)).conv = 100 ∧
    (scanPass cfgT
        (scanPass cfgT (List.replicate 101 dollarElem)).elems).conv = 1 := by
  have hdp : dollarElem.processed = false := rfl
  have hDonep : dollarDone.processed = true := rfl
  have step1 : scanPass cfgT (List.replicate 101 dollarElem) =
      ⟨List.replicate 100 dollarDone ++ [dollarElem], 100, 0⟩ := by
    unfold scanPass
    rw [show (101 : Nat) = 99 + 2 from rfl, List.replicate_add]
    rw [scanLoop_repl_conv cfgT dollarElem ("USD") 5 (37/2) hdp
      processDecide_dollar 99 (List.replicate 2 dollarElem) 0 0 (by omega)]
    have hinner : scanLoop cfgT (List.replicate 2 dollarElem) (0 + 99) 0 =
        ⟨dollarDone :: [dollarElem], 100, 0⟩ := by
      simp only [List.replicate_succ, List.replicate_zero, scanLoop, hdp,
        Bool.false_eq_true, if_false, processDecide_dollar]
      rw [if_pos (by omega : 100 ≤ 0 + 99 + 1)]
      rfl
    rw [hinner]
    rw [show (100 : Nat) = 99 + 1 from rfl, List.replicate_succ',
      List.append_assoc]
    rfl
  have step2 : scanPass cfgT
      (List.replicate 100 dollarDone ++ [dollarElem]) =
      ⟨List.replicate 100 dollarDone ++ [dollarDone], 1, 0⟩ := by
    unfold scanPass
    rw [scanLoop_processed_block cfgT dollarDone hDonep 100 [dollarElem] 0 0]
    have hinner : scanLoop cfgT [dollarElem] 0 0 = ⟨[dollarDone], 1, 0⟩ := by
      simp only [scanLoop, hdp, Bool.false_eq_true, if_false,
        processDecide_dollar]
      rw [if_neg (by omega : ¬ (100 ≤ 0 + 1))]
      rfl
    rw [hinner]
  refine ⟨by rw [step1], ?_⟩
  rw [step1]
  show (scanPass cfgT (List.replicate 100 dollarDone ++ [dollarElem])).conv = 1
  rw [step2]

/-- **C8** (amended).  The processed-set and `dataset.converted` marking
make repeated runs of the selector pass idempotent **provided the first
run performed fewer than 100 conversions**: then every output element is
either marked or decided without mutation, so a second run over the
output returns the same element states and converts nothing.  When the
first run hits the 100-conversion cap the pass is truncated and a second
run continues converting (see the counterexample). -/
theorem claim_C8 (cfg : Config) (es : List ElemState)
    (h : (scanPass cfg es).conv < 100) :
    (scanPass cfg (scanPass cfg es).elems).elems = (scanPass cfg es).elems ∧
    (scanPass cfg (scanPass cfg es).elems).conv = 0 := by
  have hpost : ∀ x ∈ (scanPass cfg es).elems, inertB cfg x = true :=
    scanLoop_post cfg es 0 0 h
  exact scanLoop_inert cfg (scanPass cfg es).elems hpost 0 0

set_option maxHeartbeats 1000000 in
/-- **C8** (witness): a single `$5` element is converted once; running
the pass again on the result changes nothing and converts nothing. -/
theorem claim_C8_witness :
    (scanPass cfgT [dollarElem]).conv < 100 ∧
    (scanPass cfgT (scanPass cfgT [dollarElem]).elems).elems =
      (scanPass cfgT [dollarElem]).elems ∧
    (scanPass cfgT (scanPass cfgT [dollarElem]).elems).conv = 0 := by
  have h : (scanPass cfgT [dollarElem]).conv < 100 := by decide
  exact ⟨h, claim_C8 cfgT [dollarElem] h⟩

end CCP
